import Mathlib

/-!
Shallow embedding of the waypoint travel planner core (src/agent/agent.py and
src/backend/main.py) together with proofs about its specified behaviour.

Python strings are modelled as lists of characters (`PyStr`), Python/JSON
values as the inductive type `Json` (dicts are insertion-ordered association
lists, exactly like Python dicts), raising code as `Except PyStr`, and the
`json` module's `loads` as the executable parser `json_loads`.  Exception
messages are short markers standing for the Python exception text; no claim
depends on the exact wording of an internal exception message.
-/

/-- Python strings, modelled as lists of characters. -/
abbrev PyStr := List Char

/-- Python/JSON values.  Numbers keep their lexical parts (integer part,
fractional digits, optional decimal exponent) so that both ints and floats
are representable; no claim performs float arithmetic. -/
inductive Json where
  | null : Json
  | bool : Bool → Json
  | num : Int → PyStr → Option Int → Json
  | str : PyStr → Json
  | arr : List Json → Json
  | obj : List (PyStr × Json) → Json

/-- Abbreviation for a JSON integer literal. -/
def Json.int (n : Int) : Json := Json.num n [] none

mutual

/-- Decidable equality on JSON values, by structural recursion. -/
def jsonDecEq : (a b : Json) → Decidable (a = b)
  | Json.null, Json.null => isTrue rfl
  | Json.bool a, Json.bool b =>
      match decEq a b with
      | isTrue h => isTrue (h ▸ rfl)
      | isFalse h => isFalse (fun he => h (Json.bool.inj he))
  | Json.num i f e, Json.num i2 f2 e2 =>
      match decEq i i2, decEq f f2, decEq e e2 with
      | isTrue h1, isTrue h2, isTrue h3 => isTrue (h1 ▸ h2 ▸ h3 ▸ rfl)
      | isFalse h1, _, _ => isFalse (fun he => h1 (Json.num.inj he).1)
      | _, isFalse h2, _ => isFalse (fun he => h2 (Json.num.inj he).2.1)
      | _, _, isFalse h3 => isFalse (fun he => h3 (Json.num.inj he).2.2)
  | Json.str a, Json.str b =>
      match decEq a b with
      | isTrue h => isTrue (h ▸ rfl)
      | isFalse h => isFalse (fun he => h (Json.str.inj he))
  | Json.arr a, Json.arr b =>
      match jsonDecEqList a b with
      | isTrue h => isTrue (h ▸ rfl)
      | isFalse h => isFalse (fun he => h (Json.arr.inj he))
  | Json.obj a, Json.obj b =>
      match jsonDecEqObj a b with
      | isTrue h => isTrue (h ▸ rfl)
      | isFalse h => isFalse (fun he => h (Json.obj.inj he))
  | Json.null, Json.bool _ => isFalse (fun h => Json.noConfusion h)
  | Json.null, Json.num _ _ _ => isFalse (fun h => Json.noConfusion h)
  | Json.null, Json.str _ => isFalse (fun h => Json.noConfusion h)
  | Json.null, Json.arr _ => isFalse (fun h => Json.noConfusion h)
  | Json.null, Json.obj _ => isFalse (fun h => Json.noConfusion h)
  | Json.bool _, Json.null => isFalse (fun h => Json.noConfusion h)
  | Json.bool _, Json.num _ _ _ => isFalse (fun h => Json.noConfusion h)
  | Json.bool _, Json.str _ => isFalse (fun h => Json.noConfusion h)
  | Json.bool _, Json.arr _ => isFalse (fun h => Json.noConfusion h)
  | Json.bool _, Json.obj _ => isFalse (fun h => Json.noConfusion h)
  | Json.num _ _ _, Json.null => isFalse (fun h => Json.noConfusion h)
  | Json.num _ _ _, Json.bool _ => isFalse (fun h => Json.noConfusion h)
  | Json.num _ _ _, Json.str _ => isFalse (fun h => Json.noConfusion h)
  | Json.num _ _ _, Json.arr _ => isFalse (fun h => Json.noConfusion h)
  | Json.num _ _ _, Json.obj _ => isFalse (fun h => Json.noConfusion h)
  | Json.str _, Json.null => isFalse (fun h => Json.noConfusion h)
  | Json.str _, Json.bool _ => isFalse (fun h => Json.noConfusion h)
  | Json.str _, Json.num _ _ _ => isFalse (fun h => Json.noConfusion h)
  | Json.str _, Json.arr _ => isFalse (fun h => Json.noConfusion h)
  | Json.str _, Json.obj _ => isFalse (fun h => Json.noConfusion h)
  | Json.arr _, Json.null => isFalse (fun h => Json.noConfusion h)
  | Json.arr _, Json.bool _ => isFalse (fun h => Json.noConfusion h)
  | Json.arr _, Json.num _ _ _ => isFalse (fun h => Json.noConfusion h)
  | Json.arr _, Json.str _ => isFalse (fun h => Json.noConfusion h)
  | Json.arr _, Json.obj _ => isFalse (fun h => Json.noConfusion h)
  | Json.obj _, Json.null => isFalse (fun h => Json.noConfusion h)
  | Json.obj _, Json.bool _ => isFalse (fun h => Json.noConfusion h)
  | Json.obj _, Json.num _ _ _ => isFalse (fun h => Json.noConfusion h)
  | Json.obj _, Json.str _ => isFalse (fun h => Json.noConfusion h)
  | Json.obj _, Json.arr _ => isFalse (fun h => Json.noConfusion h)

/-- Decidable equality on JSON lists. -/
def jsonDecEqList : (a b : List Json) → Decidable (a = b)
  | [], [] => isTrue rfl
  | a :: as1, b :: bs =>
      match jsonDecEq a b, jsonDecEqList as1 bs with
      | isTrue h1, isTrue h2 => isTrue (h1 ▸ h2 ▸ rfl)
      | isFalse h1, _ => isFalse (fun he => h1 (List.cons.inj he).1)
      | _, isFalse h2 => isFalse (fun he => h2 (List.cons.inj he).2)
  | [], _ :: _ => isFalse (fun h => List.noConfusion h)
  | _ :: _, [] => isFalse (fun h => List.noConfusion h)

/-- Decidable equality on JSON object entry lists. -/
def jsonDecEqObj : (a b : List (PyStr × Json)) → Decidable (a = b)
  | [], [] => isTrue rfl
  | (k, v) :: as1, (k2, v2) :: bs =>
      match decEq k k2, jsonDecEq v v2, jsonDecEqObj as1 bs with
      | isTrue h1, isTrue h2, isTrue h3 => isTrue (h1 ▸ h2 ▸ h3 ▸ rfl)
      | isFalse h1, _, _ =>
          isFalse (fun he => h1 (congrArg Prod.fst (List.cons.inj he).1))
      | _, isFalse h2, _ =>
          isFalse (fun he => h2 (congrArg Prod.snd (List.cons.inj he).1))
      | _, _, isFalse h3 => isFalse (fun he => h3 (List.cons.inj he).2)
  | [], _ :: _ => isFalse (fun h => List.noConfusion h)
  | _ :: _, [] => isFalse (fun h => List.noConfusion h)

end

instance : DecidableEq Json := jsonDecEq

/-- Python dicts: association lists of key/value pairs. -/
abbrev Dict := List (PyStr × Json)

/-- Lookup of a key in a dict (first occurrence; dicts built by the parser
and by the source code have unique keys). -/
def lookupKey : Dict → PyStr → Option Json
  | [], _ => none
  | (k, v) :: rest, key => if k = key then some v else lookupKey rest key

/-- Python `d[k] = v`: replace the value at an existing key in place,
otherwise append the new key at the end (insertion order). -/
def dictSet : Dict → PyStr → Json → Dict
  | [], key, v => [(key, v)]
  | (k, w) :: rest, key, v =>
      if k = key then (k, v) :: rest else (k, w) :: dictSet rest key v

/-- Python `d.get(k, default)`. -/
def pyGetD (d : Dict) (key : PyStr) (default : Json) : Json :=
  (lookupKey d key).getD default

/-- Python `d.get(k)` (default `None`). -/
def pyGet (d : Dict) (key : PyStr) : Json := pyGetD d key Json.null

/-- Python truthiness of a JSON value (`bool(x)`). -/
def pyTruthy : Json → Bool
  | Json.null => false
  | Json.bool b => b
  | Json.num i f _ => !(i == 0 && f.all (fun c => c == '0'))
  | Json.str s => !s.isEmpty
  | Json.arr l => !l.isEmpty
  | Json.obj l => !l.isEmpty

/-- Python `a or b` on JSON values: `a` if truthy else `b`. -/
def pyOr (a b : Json) : Json := if pyTruthy a then a else b

/-- Python `x.get(k)` on an arbitrary value: raises `AttributeError` when the
receiver is not a dict, otherwise returns the value (or `None`). -/
def jget (j : Json) (key : PyStr) : Except PyStr Json :=
  match j with
  | Json.obj kvs => Except.ok (pyGet kvs key)
  | _ => Except.error ('A' :: "ttributeError".data)

/-- Python `x.get(k, default)` on an arbitrary value. -/
def jgetD (j : Json) (key : PyStr) (default : Json) : Except PyStr Json :=
  match j with
  | Json.obj kvs => Except.ok (pyGetD kvs key default)
  | _ => Except.error ('A' :: "ttributeError".data)

/-- Python `x[k]` indexing of a dict: raises `KeyError` when the key is
absent. -/
def pyIndex (d : Dict) (key : PyStr) : Except PyStr Json :=
  match lookupKey d key with
  | some v => Except.ok v
  | none => Except.error ('K' :: "eyError".data)

/-- Python `for x in v` iteration: lists iterate their elements, strings
their characters, dicts their keys; other truthy values raise `TypeError`;
falsy non-iterables also raise. -/
def pyIter : Json → Except PyStr (List Json)
  | Json.arr l => Except.ok l
  | Json.str s => Except.ok (s.map (fun c => Json.str [c]))
  | Json.obj kvs => Except.ok (kvs.map (fun kv => Json.str kv.1))
  | _ => Except.error ('T' :: "ypeError".data)

/-- Decimal digits of a natural number (fuel-based, executable). -/
def natReprAux : Nat → Nat → PyStr
  | 0, _ => []
  | fuel + 1, n =>
      if n < 10 then [Char.ofNat (48 + n)]
      else natReprAux fuel (n / 10) ++ [Char.ofNat (48 + n % 10)]

/-- Decimal representation of a natural number. -/
def natRepr (n : Nat) : PyStr := natReprAux (n + 1) n

/-- Decimal representation of an integer. -/
def intRepr (i : Int) : PyStr :=
  if i < 0 then '-' :: natRepr i.natAbs else natRepr i.natAbs

mutual

/-- Python `repr` of a JSON value (containers use Python literal syntax,
strings are quoted with single quotes). -/
def pyRepr : Json → PyStr
  | Json.null => 'N' :: "one".data
  | Json.bool true => 'T' :: "rue".data
  | Json.bool false => 'F' :: "alse".data
  | Json.num i f e =>
      intRepr i ++ (if f.isEmpty then [] else '.' :: f) ++
        (match e with
         | none => []
         | some ex => 'e' :: intRepr ex)
  | Json.str s => Char.ofNat 39 :: s ++ [Char.ofNat 39]
  | Json.arr l => '[' :: pyReprList l ++ [']']
  | Json.obj kvs => Char.ofNat 123 :: pyReprObj kvs ++ [Char.ofNat 125]

/-- Comma-separated reprs of list elements. -/
def pyReprList : List Json → PyStr
  | [] => []
  | [x] => pyRepr x
  | x :: rest => pyRepr x ++ ',' :: ' ' :: pyReprList rest

/-- Comma-separated reprs of dict entries. -/
def pyReprObj : List (PyStr × Json) → PyStr
  | [] => []
  | [(k, v)] => Char.ofNat 39 :: k ++ Char.ofNat 39 :: ':' :: ' ' :: pyRepr v
  | (k, v) :: rest =>
      Char.ofNat 39 :: k ++ Char.ofNat 39 :: ':' :: ' ' :: pyRepr v ++
        ',' :: ' ' :: pyReprObj rest

end

/-- Python `str()` of a JSON value (strings are unquoted, containers fall
back to `repr`). -/
def pyStr (j : Json) : PyStr :=
  match j with
  | Json.str s => s
  | other => pyRepr other

/-! String helpers modelling Python `str` operations, all executable. -/

/-- Split off the text before the first occurrence of `sep` in `s`,
returning it together with the text after that occurrence. -/
def findSubAux : Nat → PyStr → PyStr → PyStr → Option (PyStr × PyStr)
  | 0, _, _, _ => none
  | fuel + 1, sep, acc, s =>
      if sep.isPrefixOf s then some (acc.reverse, s.drop sep.length)
      else
        match s with
        | [] => none
        | c :: rest => findSubAux fuel sep (c :: acc) rest

/-- First occurrence of `sep` in `s`, as (before, after). -/
def findSub (sep s : PyStr) : Option (PyStr × PyStr) :=
  findSubAux (s.length + 1) sep [] s

/-- Python `sep in s` (substring containment; `sep` is nonempty at every
call site of this development). -/
def pyIn (sep s : PyStr) : Bool := (findSub sep s).isSome

/-- Python `s.split(sep)` for nonempty `sep`. -/
def pySplitAux : Nat → PyStr → PyStr → List PyStr
  | 0, _, s => [s]
  | fuel + 1, sep, s =>
      match findSub sep s with
      | none => [s]
      | some (pre, suf) => pre :: pySplitAux fuel sep suf

/-- Python `s.split(sep)`. -/
def pySplit (sep s : PyStr) : List PyStr := pySplitAux (s.length + 1) sep s

/-- Lowercase an ASCII character (Python `str.lower` restricted to the ASCII
range used by the source's lookup tables). -/
def charLower (c : Char) : Char :=
  if 'A' ≤ c ∧ c ≤ 'Z' then Char.ofNat (c.toNat + 32) else c

/-- Python `s.lower()` (ASCII). -/
def pyLower (s : PyStr) : PyStr := s.map charLower

/-- Uppercase an ASCII character. -/
def charUpper (c : Char) : Char :=
  if 'a' ≤ c ∧ c ≤ 'z' then Char.ofNat (c.toNat - 32) else c

/-- Python `s.upper()` (ASCII). -/
def pyUpper (s : PyStr) : PyStr := s.map charUpper

/-- Whitespace characters recognised by Python `str.strip()` and by the JSON
parser (space, tab, newline, carriage return). -/
def isWsChar (c : Char) : Bool := c = ' ' ∨ c = '\t' ∨ c = '\n' ∨ c = '\r'

/-- Python `s.strip()`. -/
def pyStrip (s : PyStr) : PyStr :=
  ((s.dropWhile isWsChar).reverse.dropWhile isWsChar).reverse

/-- Python `s.startswith(p)`. -/
def pyStartsWith (s p : PyStr) : Bool := p.isPrefixOf s

/-! Model of `json.loads` (CPython's strict decoder): recursive-descent
parser with explicit fuel (the fuel strictly exceeds the input length, so it
never runs out on the recursions actually performed). -/

/-- Digit test. -/
def isDigitCh (c : Char) : Bool := '0' ≤ c ∧ c ≤ '9'

/-- Numeric value of a digit character. -/
def digitVal (c : Char) : Nat := c.toNat - 48

/-- Take a maximal run of digits. -/
def takeDigits : PyStr → PyStr × PyStr
  | [] => ([], [])
  | c :: rest =>
      if isDigitCh c then
        let (ds, r) := takeDigits rest
        (c :: ds, r)
      else ([], c :: rest)

/-- Natural number denoted by a digit string. -/
def digitsToNat (ds : PyStr) : Nat := ds.foldl (fun acc c => acc * 10 + digitVal c) 0

/-- Skip JSON whitespace. -/
def skipWs (s : PyStr) : PyStr := s.dropWhile isWsChar

/-- Hexadecimal value of a character, if any. -/
def hexVal (c : Char) : Option Nat :=
  if isDigitCh c then some (digitVal c)
  else if 'a' ≤ c ∧ c ≤ 'f' then some (c.toNat - 87)
  else if 'A' ≤ c ∧ c ≤ 'F' then some (c.toNat - 55)
  else none

/-- Parse the body of a JSON string literal (after the opening quote),
with the escape sequences of the JSON standard; control characters are
rejected as in CPython's strict mode.  Surrogate-pair combination is not
modelled (no input in this development uses it). -/
def parseStringBody : Nat → PyStr → Except PyStr (PyStr × PyStr)
  | 0, _ => Except.error ('U' :: "nterminated string".data)
  | fuel + 1, s =>
      match s with
      | [] => Except.error ('U' :: "nterminated string".data)
      | '"' :: rest => Except.ok ([], rest)
      | '\\' :: esc :: rest =>
          let simple : Char → Option Char := fun c =>
            if c = '"' then some '"'
            else if c = '\\' then some '\\'
            else if c = '/' then some '/'
            else if c = 'b' then some (Char.ofNat 8)
            else if c = 'f' then some (Char.ofNat 12)
            else if c = 'n' then some '\n'
            else if c = 'r' then some '\r'
            else if c = 't' then some '\t'
            else none
          (match simple esc with
           | some c => do
               let (cs, r) ← parseStringBody fuel rest
               Except.ok (c :: cs, r)
           | none =>
               if esc = 'u' then
                 match rest with
                 | h1 :: h2 :: h3 :: h4 :: rest2 =>
                     match hexVal h1, hexVal h2, hexVal h3, hexVal h4 with
                     | some a, some b, some c, some d => do
                         let (cs, r) ← parseStringBody fuel rest2
                         Except.ok (Char.ofNat (((a * 16 + b) * 16 + c) * 16 + d) :: cs, r)
                     | _, _, _, _ => Except.error ('I' :: "nvalid \\u escape".data)
                 | _ => Except.error ('I' :: "nvalid \\u escape".data)
               else Except.error ('I' :: "nvalid \\ escape".data))
      | '\\' :: [] => Except.error ('U' :: "nterminated string".data)
      | c :: rest =>
          if c.toNat < 32 then Except.error ('I' :: "nvalid control character".data)
          else do
            let (cs, r) ← parseStringBody fuel rest
            Except.ok (c :: cs, r)

/-- Parse a JSON number starting at `s` (first character is `-` or a digit).
CPython's grammar: `-?(0|[1-9][0-9]*)(\.[0-9]+)?([eE][-+]?[0-9]+)?`. -/
def parseNumber (s : PyStr) : Except PyStr (Json × PyStr) := do
  let (neg, s1) :=
    match s with
    | '-' :: rest => (true, rest)
    | _ => (false, s)
  let (intDigits, s2) := takeDigits s1
  if intDigits.isEmpty then
    Except.error ('E' :: "xpecting value".data)
  else if intDigits.length > 1 ∧ intDigits.headD '0' = '0' then
    Except.error ('E' :: "xpecting value".data)
  else
    let iv : Int := Int.ofNat (digitsToNat intDigits)
    let iv := if neg then -iv else iv
    let (frac, s3) ←
      match s2 with
      | '.' :: rest =>
          let (fd, r) := takeDigits rest
          if fd.isEmpty then Except.error ('I' :: "nvalid number".data)
          else Except.ok (fd, r)
      | _ => Except.ok (([] : PyStr), s2)
    let (ex, s4) ←
      match s3 with
      | c :: rest =>
          if c = 'e' ∨ c = 'E' then
            let (esign, rest2) :=
              match rest with
              | '+' :: r => ((1 : Int), r)
              | '-' :: r => ((-1 : Int), r)
              | _ => ((1 : Int), rest)
            let (ed, r) := takeDigits rest2
            if ed.isEmpty then Except.error ('I' :: "nvalid number".data)
            else Except.ok (some (esign * Int.ofNat (digitsToNat ed)), r)
          else Except.ok ((none : Option Int), s3)
      | [] => Except.ok ((none : Option Int), s3)
    Except.ok (Json.num iv frac ex, s4)

mutual

/-- Parse one JSON value (leading whitespace allowed). -/
def parseValue : Nat → PyStr → Except PyStr (Json × PyStr)
  | 0, _ => Except.error ('F' :: "uel exhausted".data)
  | fuel + 1, s =>
      match skipWs s with
      | [] => Except.error ('E' :: "xpecting value".data)
      | c :: rest =>
          if c = Char.ofNat 123 then parseObjBody fuel rest []
          else if c = '[' then parseArrBody fuel rest
          else if c = '"' then do
            let (str, r) ← parseStringBody fuel rest
            Except.ok (Json.str str, r)
          else if c = 't' then
            if ['r', 'u', 'e'].isPrefixOf rest then Except.ok (Json.bool true, rest.drop 3)
            else Except.error ('E' :: "xpecting value".data)
          else if c = 'f' then
            if ['a', 'l', 's', 'e'].isPrefixOf rest then Except.ok (Json.bool false, rest.drop 4)
            else Except.error ('E' :: "xpecting value".data)
          else if c = 'n' then
            if ['u', 'l', 'l'].isPrefixOf rest then Except.ok (Json.null, rest.drop 3)
            else Except.error ('E' :: "xpecting value".data)
          else if c = '-' ∨ isDigitCh c then parseNumber (c :: rest)
          else Except.error ('E' :: "xpecting value".data)

/-- Parse the contents of a JSON array after the opening bracket. -/
def parseArrBody : Nat → PyStr → Except PyStr (Json × PyStr)
  | 0, _ => Except.error ('F' :: "uel exhausted".data)
  | fuel + 1, s =>
      match skipWs s with
      | ']' :: rest => Except.ok (Json.arr [], rest)
      | other => parseArrElems fuel other []

/-- Parse array elements (comma separated) until the closing bracket. -/
def parseArrElems : Nat → PyStr → List Json → Except PyStr (Json × PyStr)
  | 0, _, _ => Except.error ('F' :: "uel exhausted".data)
  | fuel + 1, s, acc => do
      let (v, r) ← parseValue fuel s
      match skipWs r with
      | ',' :: rest => parseArrElems fuel rest (acc ++ [v])
      | ']' :: rest => Except.ok (Json.arr (acc ++ [v]), rest)
      | _ => Except.error ('E' :: "xpecting delimiter".data)

/-- Parse the contents of a JSON object after the opening brace.  Duplicate
keys follow Python semantics (the last occurrence wins). -/
def parseObjBody : Nat → PyStr → Dict → Except PyStr (Json × PyStr)
  | 0, _, _ => Except.error ('F' :: "uel exhausted".data)
  | fuel + 1, s, acc =>
      match skipWs s with
      | c :: rest =>
          if c = Char.ofNat 125 ∧ acc.isEmpty then Except.ok (Json.obj [], rest)
          else if c = '"' then do
            let (key, r1) ← parseStringBody fuel rest
            match skipWs r1 with
            | ':' :: r2 => do
                let (v, r3) ← parseValue fuel r2
                let acc2 := dictSet acc key v
                match skipWs r3 with
                | ',' :: r4 => parseObjBody fuel r4 acc2
                | c2 :: r4 =>
                    if c2 = Char.ofNat 125 then Except.ok (Json.obj acc2, r4)
                    else Except.error ('E' :: "xpecting delimiter".data)
                | [] => Except.error ('E' :: "xpecting delimiter".data)
            | _ => Except.error ('E' :: "xpecting colon".data)
          else Except.error ('E' :: "xpecting property name".data)
      | [] => Except.error ('E' :: "xpecting property name".data)

end

/-- Model of Python `json.loads`: parse exactly one JSON value, allowing
surrounding whitespace, and reject trailing data. -/
def json_loads (s : PyStr) : Except PyStr Json := do
  let (v, r) ← parseValue (2 * s.length + 8) s
  if (skipWs r).isEmpty then Except.ok v
  else Except.error ('E' :: "xtra data".data)

/-! Datetime model.  `datetime.strptime(s, "%Y-%m-%dT%H:%M:%S")` is modelled
by an exact parser for that format (CPython's field patterns: four-digit
year, one- or two-digit month/day/hour/minute/second with the ranges the
`_strptime` regular expressions and the `datetime` constructor accept), and
parsed instants are mapped to seconds since the civil epoch, which preserves
ordering and timedelta arithmetic. -/

/-- Leap year test (proleptic Gregorian, as `datetime`). -/
def isLeapYear (y : Int) : Bool := (y % 4 = 0 ∧ y % 100 ≠ 0) ∨ y % 400 = 0

/-- Days in a month. -/
def daysInMonth (y m : Int) : Int :=
  if m = 2 then (if isLeapYear y then 29 else 28)
  else if m = 4 ∨ m = 6 ∨ m = 9 ∨ m = 11 then 30
  else 31

/-- Days from the civil epoch 1970-01-01 (Hinnant's `days_from_civil`;
all intermediate values are nonnegative for the years accepted by the
parser, so `Int` euclidean division agrees with the C truncation). -/
def daysFromCivil (y m d : Int) : Int :=
  let y2 := if m ≤ 2 then y - 1 else y
  let era := y2 / 400
  let yoe := y2 - era * 400
  let mp := (m + 9) % 12
  let doy := (153 * mp + 2) / 5 + d - 1
  let doe := yoe * 365 + yoe / 4 - yoe / 100 + doy
  era * 146097 + doe - 719468

/-- Seconds since the epoch of a civil datetime. -/
def dtToSec (y mo d hh mi ss : Int) : Int :=
  daysFromCivil y mo d * 86400 + hh * 3600 + mi * 60 + ss

/-- Parse exactly four digits. -/
def parse4Digits : PyStr → Option (Nat × PyStr)
  | a :: b :: c :: d :: rest =>
      if isDigitCh a ∧ isDigitCh b ∧ isDigitCh c ∧ isDigitCh d then
        some (((digitVal a * 10 + digitVal b) * 10 + digitVal c) * 10 + digitVal d, rest)
      else none
  | _ => none

/-- Parse a one- or two-digit field with the given validity predicates
(matching the net effect of CPython's `_strptime` alternation patterns
followed by a non-digit literal). -/
def parseField12 (validTwo validOne : Nat → Bool) : PyStr → Option (Nat × PyStr)
  | c1 :: c2 :: rest =>
      if isDigitCh c1 ∧ isDigitCh c2 then
        let v := digitVal c1 * 10 + digitVal c2
        if validTwo v then some (v, rest) else none
      else if isDigitCh c1 ∧ validOne (digitVal c1) then some (digitVal c1, c2 :: rest)
      else none
  | [c1] => if isDigitCh c1 ∧ validOne (digitVal c1) then some (digitVal c1, []) else none
  | [] => none

/-- Expect a literal character. -/
def expectChar (c : Char) : PyStr → Option PyStr
  | x :: rest => if x = c then some rest else none
  | [] => none

/-- Model of `datetime.strptime(s, "%Y-%m-%dT%H:%M:%S")`, returning seconds
since the epoch; `none` models `ValueError` (caught at every call site). -/
def strptimeIso (s : PyStr) : Option Int := do
  let (y, r1) ← parse4Digits s
  let r2 ← expectChar '-' r1
  let (mo, r3) ← parseField12 (fun v => 1 ≤ v ∧ v ≤ 12) (fun v => 1 ≤ v) r2
  let r4 ← expectChar '-' r3
  let (d, r5) ← parseField12 (fun v => 1 ≤ v ∧ v ≤ 31) (fun v => 1 ≤ v) r4
  let r6 ← expectChar 'T' r5
  let (hh, r7) ← parseField12 (fun v => v ≤ 23) (fun _ => true) r6
  let r8 ← expectChar ':' r7
  let (mi, r9) ← parseField12 (fun v => v ≤ 59) (fun _ => true) r8
  let r10 ← expectChar ':' r9
  let (ss, r11) ← parseField12 (fun v => v ≤ 59) (fun _ => true) r10
  if r11.isEmpty ∧ 1 ≤ y ∧ (d : Int) ≤ daysInMonth y mo then
    some (dtToSec y mo d hh mi ss)
  else none

/-- Replace every occurrence of a character (Python `s.replace(" ", "T")`). -/
def pyReplaceChar (s : PyStr) (a b : Char) : PyStr :=
  s.map (fun c => if c = a then b else c)

/-- Model of `_parse_iso` (agent.py): `None` for falsy input, otherwise parse
after normalising spaces to `T` and appending `:00` to 16-character strings;
any exception (including `AttributeError` on truthy non-strings) yields
`None` via the function's own `try`/`except`. -/
def parse_iso (j : Json) : Option Int :=
  match j with
  | Json.str s =>
      if s.isEmpty then none
      else
        let s2 := pyReplaceChar s ' ' 'T'
        let s3 := if s2.length = 16 then s2 ++ (':' :: "00".data) else s2
        strptimeIso s3
  | _ => none

/-! The Conflict Resolution Scheduler (`_conflicts`, `enforce_no_overlaps`),
modelled over Python dicts. -/

/-- Key strings used by the scheduler and its callers. -/
def itineraryK : PyStr := "itinerary".data

/-- Key string for "logs". -/
def logsK : PyStr := "logs".data

/-- Key string for "startTime". -/
def startTimeK : PyStr := "startTime".data

/-- Key string for "endTime". -/
def endTimeK : PyStr := "endTime".data

/-- Key string for "title". -/
def titleK : PyStr := "title".data

/-- Key string for "id". -/
def idK : PyStr := "id".data

/-- Key string for "locations". -/
def locationsK : PyStr := "locations".data

/-- Key string for "linkedItineraryId". -/
def linkedItineraryIdK : PyStr := "linkedItineraryId".data

/-- Marker message for Python `AttributeError`. -/
def attrError : PyStr := 'A' :: "ttributeError".data

/-- Model of `_conflicts(a, b, buffer_minutes)` (agent.py lines 774-784):
parse both start times (no conflict unless both parse), default a missing
end to start plus 90 minutes, then add the buffer to `a`'s end and subtract
it from `b`'s start, and test strict interval overlap.  Note that `b`'s end
and `a`'s start are left unbuffered, exactly as in the source. -/
def conflicts (a b : Dict) (buffer_minutes : Int) : Bool :=
  let sa := parse_iso (pyGet a startTimeK)
  let ea0 := parse_iso (pyGet a endTimeK)
  let sb := parse_iso (pyGet b startTimeK)
  let eb0 := parse_iso (pyGet b endTimeK)
  match sa, sb with
  | some sa, some sb =>
      let ea := ea0.getD (sa + 90 * 60)
      let eb := eb0.getD (sb + 90 * 60)
      let ea2 := ea + buffer_minutes * 60
      let sb2 := sb - buffer_minutes * 60
      decide (sa < eb) && decide (sb2 < ea2)
  | _, _ => false

/-- Sentinel sort key for items whose start time does not parse
(`datetime.max` in the source, strictly above every parseable instant). -/
def dtMaxSec : Int := dtToSec 9999 12 31 23 59 59 + 1

/-- Sort key of `enforce_no_overlaps` (`keyfn`): the parsed start time, or
`datetime.max` when it does not parse. -/
def keyfn (x : Dict) : Int := (parse_iso (pyGet x startTimeK)).getD dtMaxSec

/-- Stable insertion into a key-sorted list: the new element (originally
earlier in the list) goes before items of equal key. -/
def insertSorted (x : Dict) : List Dict → List Dict
  | [] => [x]
  | y :: ys => if keyfn y < keyfn x then y :: insertSorted x ys else x :: y :: ys

/-- Stable sort by `keyfn`; Python's `list.sort(key=keyfn)` is a stable sort
by the same key, so it produces exactly this list. -/
def sortItems : List Dict → List Dict
  | [] => []
  | x :: xs => insertSorted x (sortItems xs)

/-- Log line recorded for a removed item:
`conflict_removed: '<title>' at <startTime>`. -/
def logEntry (r : Dict) : Json :=
  Json.str ("conflict_removed: ".data ++ Char.ofNat 39 :: pyStr (pyGet r titleK) ++
    Char.ofNat 39 :: ' ' :: "at ".data ++ pyStr (pyGet r startTimeK))

/-- One step of the greedy keep/drop walk of `enforce_no_overlaps`: drop the
candidate when it conflicts (30-minute buffer) with any already-kept item. -/
def schedStep (acc : List Dict × List Dict) (item : Dict) : List Dict × List Dict :=
  if acc.1.any (fun k => conflicts item k 30) then (acc.1, acc.2 ++ [item])
  else (acc.1 ++ [item], acc.2)

/-- Interpret a JSON array's elements as dicts, raising `AttributeError` at
the first non-dict (as `keyfn`'s `x.get` does during the sort). -/
def asItemList : List Json → Except PyStr (List Dict)
  | [] => Except.ok []
  | Json.obj kvs :: rest => do
      let r ← asItemList rest
      Except.ok (kvs :: r)
  | _ :: _ => Except.error attrError

/-- The logs normalisation at the top of `enforce_no_overlaps` (agent.py
lines 788-791): a non-list `"logs"` value is replaced by a fresh empty
list; a missing key stays missing (the local variable is a fresh list). -/
def logsNormalize (plan : Dict) : Dict :=
  match lookupKey plan logsK with
  | some (Json.arr _) => plan
  | some _ => dictSet plan logsK (Json.arr [])
  | none => plan

/-- The kept items of the greedy walk, in sorted order. -/
def keptOf (items : List Dict) : List Dict :=
  ((sortItems items).foldl schedStep ([], [])).1

/-- The removed items of the greedy walk, in processing order. -/
def removedOf (items : List Dict) : List Dict :=
  ((sortItems items).foldl schedStep ([], [])).2

/-- The dict written back by `enforce_no_overlaps` on its main path: the
itinerary value is the sorted, filtered item list (the list was sorted in
place, so this holds whether or not anything was removed), and the removal
log lines are appended to the stored logs list only when the `"logs"` key
is present (otherwise the source appends them to a local list and they are
lost). -/
def enforceWriteBack (plan : Dict) (items : List Dict) : Dict :=
  let plan2 := dictSet (logsNormalize plan) itineraryK (Json.arr ((keptOf items).map Json.obj))
  if (removedOf items).isEmpty then plan2
  else
    match lookupKey plan2 logsK with
    | some (Json.arr l) => dictSet plan2 logsK (Json.arr (l ++ (removedOf items).map logEntry))
    | _ => plan2

/-- Model of `enforce_no_overlaps(plan)` (agent.py lines 786-808) over a
Python dict.  A missing `"itinerary"` key leaves the dict's itinerary
untouched; a non-list itinerary value or a non-dict item raises
(`list.sort` / `keyfn`'s `x.get`). -/
def enforce_no_overlaps (plan : Dict) : Except PyStr Dict :=
  match lookupKey plan itineraryK with
  | none => Except.ok (logsNormalize plan)
  | some (Json.arr itemsJ) =>
      match asItemList itemsJ with
      | Except.error e => Except.error e
      | Except.ok items => Except.ok (enforceWriteBack plan items)
  | some _ => Except.error attrError

/-! The Structured-Output Extractors (`safe_json_from_prefill_array`,
`safe_json_from_prefill_object`, agent.py lines 816-831). -/

/-- Marker message for Python `IndexError`. -/
def indexError : PyStr := 'I' :: "ndexError".data

/-- Marker message for Python `TypeError`. -/
def typeError : PyStr := 'T' :: "ypeError".data

/-- Model of `safe_json_from_prefill_array(text)`: prepend the `[` sentinel,
append a `]` if none occurs anywhere, truncate at the first `]`, and parse;
parse failures model the uncaught `json.JSONDecodeError`. -/
def safe_json_from_prefill_array (text : PyStr) : Except PyStr Json :=
  let s := '[' :: text
  let s2 := if pyIn "]".data s then s else s ++ "]".data
  let s3 := (pySplit "]".data s2).headD [] ++ "]".data
  json_loads s3

/-- Fence marker. -/
def fence3 : PyStr := "```".data

/-- Fence marker with language tag. -/
def fenceJson : PyStr := "```json".data

/-- Fence marker with language tag and newline. -/
def fenceJsonNl : PyStr := "```json\n".data

/-- Model of `safe_json_from_prefill_object(text)`: prepend the `{`
sentinel, strip a ```json fenced block (or a bare ``` block) if present,
and parse.  Indexing a missing split part models the uncaught
`IndexError`; parse failures model the uncaught `json.JSONDecodeError`. -/
def safe_json_from_prefill_object (text : PyStr) : Except PyStr Json :=
  let s := Char.ofNat 123 :: text
  if pyIn fenceJson s then
    match pySplit fenceJsonNl s with
    | _ :: p1 :: _ => json_loads ((pySplit fence3 p1).headD [])
    | _ => Except.error indexError
  else if pyIn fence3 s then
    match pySplit fence3 s with
    | _ :: p1 :: _ => json_loads ((pySplit fence3 p1).headD [])
    | _ => Except.error indexError
  else json_loads s

/-! The Integrity Enforcer: `ensure_ids` (agent.py lines 810-814) and the
location pruning of the refine flow (backend/main.py lines 330-341). -/

/-- Assign generated ids to the items lacking a truthy `"id"`: the supply
`gen` models successive `str(uuid.uuid4())` draws. -/
def assignIds (gen : Nat → PyStr) : Nat → List Dict → List Dict
  | _, [] => []
  | n, it :: rest =>
      if pyTruthy (pyGet it idK) then it :: assignIds gen n rest
      else dictSet it idK (Json.str (gen n)) :: assignIds gen (n + 1) rest

/-- Model of `ensure_ids(plan)`: iterate `plan.get("itinerary", [])` and give
every item without a truthy id a fresh generated id.  Iterating a non-list
truthy value raises (`TypeError`, or `AttributeError` on the first element
of a string or dict); empty strings and dicts iterate zero times. -/
def ensure_ids (gen : Nat → PyStr) (plan : Dict) : Except PyStr Dict :=
  match lookupKey plan itineraryK with
  | none => Except.ok plan
  | some (Json.arr itemsJ) => do
      let items ← asItemList itemsJ
      Except.ok (dictSet plan itineraryK (Json.arr ((assignIds gen 0 items).map Json.obj)))
  | some (Json.str s) => if s.isEmpty then Except.ok plan else Except.error attrError
  | some (Json.obj kvs) => if kvs.isEmpty then Except.ok plan else Except.error attrError
  | some _ => Except.error typeError

/-- Ids of the itinerary items (`{item["id"] for item in itinerary}`,
main.py line 333): raises on a non-dict item or a missing `"id"` key. -/
def itinerary_ids : List Json → Except PyStr (List Json)
  | [] => Except.ok []
  | Json.obj it :: rest => do
      let v ← pyIndex it idK
      let r ← itinerary_ids rest
      Except.ok (v :: r)
  | _ :: _ => Except.error typeError

/-- Keep the locations whose `linkedItineraryId` is among `ids`
(main.py lines 334-335): raises on a non-dict location or a missing key. -/
def filterLocsAux (ids : List Json) : List Json → Except PyStr (List Json)
  | [] => Except.ok []
  | Json.obj l :: rest => do
      let v ← pyIndex l linkedItineraryIdK
      let r ← filterLocsAux ids rest
      Except.ok (if ids.contains v then Json.obj l :: r else r)
  | _ :: _ => Except.error typeError

/-- Model of the location pruning of the refine flow (main.py lines
333-335). -/
def filter_locations (itin locs : List Json) : Except PyStr (List Json) := do
  let ids ← itinerary_ids itin
  filterLocsAux ids locs

/-- The Integrity Enforcer: `ensure_ids` on the itinerary followed by the
location pruning, the two code pieces the spec's section 4.8 describes. -/
def integrity_enforcer (gen : Nat → PyStr) (itin locs : List Json) :
    Except PyStr (List Json × List Json) := do
  let items ← asItemList itin
  let items2 := (assignIds gen 0 items).map Json.obj
  let locs2 ← filter_locations items2 locs
  Except.ok (items2, locs2)

/-! The flight Query Interpreter and Search Result Normalizer
(`search_real_flights`, agent.py lines 452-746) and its helpers.  The
regular-expression extraction of origin/destination/dates/cabin/seats/
currency from the free-text query is abstracted as the function's inputs;
everything after it is translated from the source. -/

/-- Model of `infer_home_airport(city_text)` (agent.py lines 91-124). -/
def infer_home_airport (city_text : PyStr) : Option PyStr :=
  if city_text.isEmpty then none
  else
    let c := pyLower city_text
    if pyIn "berkeley".data c || pyIn "oakland".data c then some "OAK".data
    else if pyIn "san francisco".data c then some "SFO".data
    else if pyIn "san jose".data c then some "SJC".data
    else if pyIn "seattle".data c then some "SEA".data
    else if pyIn "los angeles".data c then some "LAX".data
    else if pyIn "new york".data c || pyIn "nyc".data c || pyIn "manhattan".data c
      || pyIn "brooklyn".data c then some "JFK".data
    else if pyIn "boston".data c then some "BOS".data
    else if pyIn "chicago".data c then some "ORD".data
    else if pyIn "washington".data c && (pyIn "dc".data c || pyIn "d.c.".data c) then
      some "DCA".data
    else if pyIn "dallas".data c then some "DFW".data
    else if pyIn "atlanta".data c then some "ATL".data
    else if pyIn "miami".data c then some "MIA".data
    else if pyIn "denver".data c then some "DEN".data
    else if pyIn "phoenix".data c then some "PHX".data
    else if pyIn "houston".data c then some "IAH".data
    else if pyIn "austin".data c then some "AUS".data
    else if pyIn "las vegas".data c then some "LAS".data
    else if pyIn "san diego".data c then some "SAN".data
    else if pyIn "portland".data c && pyIn "or".data c then some "PDX".data
    else none

/-- Python truthiness of an optional string. -/
def optTruthy : Option PyStr → Bool
  | none => false
  | some s => !s.isEmpty

/-- JSON value of an optional string (`None` becomes `null`). -/
def optStrJson : Option PyStr → Json
  | none => Json.null
  | some s => Json.str s

/-- The origin after the home-airport fallback (`if not origin: origin =
infer_home_airport(current_profile.city)`). -/
def resolveOrigin (parsedOrigin : Option PyStr) (city : PyStr) : Option PyStr :=
  if optTruthy parsedOrigin then parsedOrigin else infer_home_airport city

/-- Key string for "error". -/
def errorK : PyStr := "error".data

/-- Key string for "user_prompt_needed". -/
def upnK : PyStr := "user_prompt_needed".data

/-- Key string for "suggested_questions". -/
def sqK : PyStr := "suggested_questions".data

/-- Key string for "query_parsed". -/
def queryParsedK : PyStr := "query_parsed".data

/-- Key string for "results". -/
def resultsK : PyStr := "results".data

/-- The home-city hint question (`f"What's your preferred airport near
{current_profile.city}?"`). -/
def homeHintQuestion (city : PyStr) : PyStr :=
  "What's your preferred airport near ".data ++ city ++ "?".data

/-- The question about the missing airports. -/
def airportsQuestion : PyStr := "What cities or airports are you flying between?".data

/-- The clarification JSON returned when origin, destination or depart date
is missing (agent.py lines 506-518), including the home-city hint inserted
first when the origin is missing and a home city is known. -/
def flightHints : List Json :=
  [Json.str airportsQuestion,
   Json.str "What is your departure date in YYYY-MM-DD?".data,
   Json.str "Do you need a return date?".data]

def flightsMissingJson (origin : Option PyStr) (city : PyStr) : Json :=
  Json.obj [(errorK, Json.str "Missing origin/destination/depart_date".data),
            (upnK, Json.bool true),
            (sqK, Json.arr
              (if ¬ optTruthy origin ∧ ¬ city.isEmpty then
                Json.str (homeHintQuestion city) :: flightHints
               else flightHints))]

/-- Object test. -/
def isObjJson : Json → Bool
  | Json.obj _ => true
  | _ => false

/-- Array test (`isinstance(x, list)`). -/
def isArrJson : Json → Bool
  | Json.arr _ => true
  | _ => false

/-- Model of `_lod(x)`: the dict elements of a list, else the empty list. -/
def lod (x : Json) : List Json :=
  match x with
  | Json.arr l => l.filter isObjJson
  | _ => []

/-- Model of `_coerce_results(x)` (agent.py lines 551-583): the four result
buckets from whichever of the known response shapes `x` has. -/
def coerce_results (x : Json) : List Json × List Json × List Json × List Json :=
  match x with
  | Json.arr _ => (lod x, [], [], [])
  | Json.obj kvs =>
      (match pyGet kvs resultsK with
       | Json.obj rk =>
           (lod (pyGetD rk "best".data (Json.arr [])),
            lod (pyGetD rk "other".data (Json.arr [])),
            lod (pyGetD rk "best_return".data (Json.arr [])),
            lod (pyGetD rk "other_return".data (Json.arr [])))
       | _ =>
           let best := lod (pyGetD kvs "best".data (Json.arr []))
           let other := lod (pyGetD kvs "other".data (Json.arr []))
           let bestR := lod (pyGetD kvs "best_return".data (Json.arr []))
           let otherR := lod (pyGetD kvs "other_return".data (Json.arr []))
           if best.isEmpty ∧ other.isEmpty ∧ bestR.isEmpty ∧ otherR.isEmpty then
             (lod (pyGetD kvs "best_flights".data (Json.arr [])),
              lod (pyGetD kvs "other_flights".data (Json.arr [])),
              lod (pyGetD kvs "best_return_flights".data (Json.arr [])),
              lod (pyGetD kvs "other_return_flights".data (Json.arr [])))
           else (best, other, bestR, otherR))
  | _ => ([], [], [], [])

/-- Monadic short-circuiting `or`: evaluate the right operand only when the
left is falsy (Python's lazy `or` between expressions that may raise). -/
def pyOrM (a : Json) (mb : Except PyStr Json) : Except PyStr Json :=
  if pyTruthy a then Except.ok a else mb

/-- Python `int(x)` truncation of a JSON number (binary-float rounding of
the decimal literal is not modelled; every claim-relevant use has an
integral value). -/
def jnumTrunc (i : Int) (f : PyStr) (e : Option Int) : Int :=
  match e with
  | none => i
  | some ex =>
      let s : Int := if i < 0 then -1 else 1
      let absMant : Nat := i.natAbs * 10 ^ f.length + digitsToNat f
      let up : Nat := if 0 ≤ ex then ex.natAbs else 0
      let down : Nat := f.length + (if ex < 0 then ex.natAbs else 0)
      s * Int.ofNat (absMant * 10 ^ up / 10 ^ down)

/-- Python `isinstance(x, (int, float))` (booleans are ints in Python). -/
def jsonIsNum : Json → Bool
  | Json.num _ _ _ => true
  | Json.bool _ => true
  | _ => false

/-- Python `int(x)` for a value known to satisfy `jsonIsNum`. -/
def jsonTrunc : Json → Int
  | Json.num i f e => jnumTrunc i f e
  | Json.bool b => if b then 1 else 0
  | _ => 0

/-- Model of `_code_or_name(xv)`. -/
def code_or_name (xv : Json) : Json :=
  match xv with
  | Json.obj d => pyOr (pyGet d "code".data) (pyOr (pyGet d "iata".data) (pyGet d "name".data))
  | _ => xv

/-- Model of the per-segment body of `_parse_serpapi_legs` (agent.py lines
589-638) for one segment dict. -/
def parseLeg (segd : Dict) : Except PyStr Json := do
  let dep := pyOr (pyGet segd "departure_airport".data)
      (pyOr (pyGet segd "from".data) (pyOr (pyGet segd "departure".data) (Json.obj [])))
  let arrv := pyOr (pyGet segd "arrival_airport".data)
      (pyOr (pyGet segd "to".data) (pyOr (pyGet segd "arrival".data) (Json.obj [])))
  let airline_name ← pyOrM (pyGet segd "airline".data) (do
    let c1 ← jget (pyOr (pyGet segd "carrier".data) (Json.obj [])) "name".data
    pyOrM c1 (jget (pyOr (pyGet segd "operating_carrier".data) (Json.obj [])) "name".data))
  let ac1 ← jget (pyOr (pyGet segd "carrier".data) (Json.obj [])) "iata".data
  let airline_code ← pyOrM ac1 (do
    let c2 ← jget (pyOr (pyGet segd "carrier".data) (Json.obj [])) "code".data
    pyOrM c2 (jget (pyOr (pyGet segd "operating_carrier".data) (Json.obj [])) "iata".data))
  let fno ← pyOrM (pyGet segd "flight_number".data) (do
    let n1 := pyGet segd "number".data
    pyOrM n1 (do
      let n2 ← jget (pyOr (pyGet segd "flight".data) (Json.obj [])) "number".data
      pyOrM n2 (jget (pyOr (pyGet segd "flight".data) (Json.obj [])) "code".data)))
  let flight_number ←
    if pyTruthy fno then
      let fno_str := pyStr fno
      if pyTruthy airline_code then
        match airline_code with
        | Json.str ac =>
            if ¬ pyStartsWith (pyUpper fno_str) ac then
              Except.ok (Json.str (pyStr airline_code ++ fno_str))
            else Except.ok (Json.str fno_str)
        | _ => Except.error typeError
      else Except.ok (Json.str fno_str)
    else Except.ok Json.null
  let dep_time := pyOr (pyGet segd "departure_time".data)
      (match dep with | Json.obj dd => pyGet dd "time".data | _ => Json.null)
  let arr_time := pyOr (pyGet segd "arrival_time".data)
      (match arrv with | Json.obj ad => pyGet ad "time".data | _ => Json.null)
  let duration0 := pyGet segd "duration".data
  let duration := if jsonIsNum duration0 then Json.str (intRepr (jsonTrunc duration0)) else duration0
  let stopsRaw := pyOr (pyGet segd "stops".data) (pyOr (pyGet segd "layovers".data) (Json.arr []))
  let stops ← pyIter stopsRaw
  let layovers := stops.map (fun s =>
    match s with
    | Json.obj sd => pyOr (pyGet sd "name".data) (pyGet sd "code".data)
    | other => Json.str (pyStr other))
  Except.ok (Json.obj
    [("airline".data, pyOr airline_name airline_code),
     ("flight_number".data, flight_number),
     ("departure_airport".data, code_or_name dep),
     ("departure_time".data, if pyTruthy dep_time then Json.str (pyStr dep_time) else Json.null),
     ("arrival_airport".data, code_or_name arrv),
     ("arrival_time".data, if pyTruthy arr_time then Json.str (pyStr arr_time) else Json.null),
     ("duration".data, duration),
     ("layovers".data, Json.arr layovers)])

/-- Fold `parseLeg` over the segments. -/
def parseLegs : List Json → Except PyStr (List Json)
  | [] => Except.ok []
  | Json.obj segd :: rest => do
      let leg ← parseLeg segd
      let r ← parseLegs rest
      Except.ok (leg :: r)
  | _ :: rest => parseLegs rest

/-- Model of `_parse_serpapi_legs(item)` (agent.py lines 585-639). -/
def parse_serpapi_legs (item : Json) : Except PyStr (List Json) :=
  match item with
  | Json.obj d => parseLegs (lod (pyOr (pyGet d "flights".data) (Json.arr [])))
  | _ => Except.ok []

/-- Model of the booking-link normalisation of `_shrink_item`. -/
def shrinkLink (bld : Dict) : Json :=
  Json.obj
    [("provider".data, pyOr (pyGet bld "provider_name".data)
        (pyOr (pyGet bld "provider".data) (pyGet bld "type".data))),
     ("link".data, pyGet bld "link".data),
     ("price".data,
      match pyGet bld "price".data with
      | Json.null => Json.null
      | v => Json.str (pyStr v))]

/-- Model of `_shrink_item(f)` (agent.py lines 641-682); `none` models the
`None` returned for a non-dict (skipped by `shrink`). -/
def shrink_item (currency : PyStr) (f : Json) : Except PyStr (Option Json) :=
  match f with
  | Json.obj fd => do
      let p := pyOr (pyGet fd "price".data) (pyGet fd "total_price".data)
      let (price, ccy) :=
        match p with
        | Json.obj pd =>
            let inner := pyOr (pyGet pd "price".data)
                (pyOr (pyGet pd "amount".data) (pyOr (pyGet pd "display".data) (Json.str [])))
            let stripped := pyStrip (pyStr inner)
            ((if stripped.isEmpty then Json.null else Json.str stripped), pyGet pd "currency".data)
        | Json.num _ _ _ => (Json.str (pyStr p), Json.null)
        | Json.bool _ => (Json.str (pyStr p), Json.null)
        | Json.str _ => (Json.str (pyStr p), Json.null)
        | _ => (Json.null, Json.null)
      let od := pyOr (pyGet fd "out_duration".data) (pyGet fd "total_duration".data)
      let rd := pyOr (pyGet fd "ret_duration".data) (pyGet fd "return_total_duration".data)
      let out_dur := if jsonIsNum od then Json.str (intRepr (jsonTrunc od)) else od
      let ret_dur := if jsonIsNum rd then Json.str (intRepr (jsonTrunc rd)) else rd
      let legs0 := lod (pyOr (pyGet fd "legs_out".data) (Json.arr []))
      let legs ←
        if legs0.isEmpty && isArrJson (pyGet fd "flights".data) then parse_serpapi_legs f
        else Except.ok legs0
      let links := (lod (pyOr (pyGet fd "booking_links".data) (Json.arr []))).map
        (fun bl => match bl with | Json.obj bld => shrinkLink bld | _ => Json.null)
      Except.ok (some (Json.obj
        [("title".data, pyOr (pyGet fd "title".data)
            (pyOr (pyGet fd "type".data) (Json.str "Departing flight".data))),
         ("total_price".data, price),
         ("currency".data, pyOr ccy (Json.str currency)),
         ("out_duration".data, out_dur),
         ("ret_duration".data, ret_dur),
         ("legs_out".data, Json.arr legs),
         ("booking_links".data, Json.arr (links.take 2))]))
  | _ => Except.ok none

/-- Model of `shrink(bucket)` (agent.py lines 687-693): shrink the first
three entries, keeping the truthy results. -/
def shrink (currency : PyStr) (bucket : List Json) : Except PyStr (List Json) := do
  let rec go : List Json → Except PyStr (List Json)
    | [] => Except.ok []
    | f :: rest => do
        let item ← shrink_item currency f
        let r ← go rest
        match item with
        | some j => Except.ok (if pyTruthy j then j :: r else r)
        | none => Except.ok r
  go (bucket.take 3)

/-- The `query_parsed` payload (agent.py lines 716-724 and 729-738). -/
def queryParsedJson (origin destination depart : PyStr) (return_date : Option PyStr)
    (non_stop : Bool) (cabin : Option PyStr) (seats : Int) (currency : PyStr) : Json :=
  Json.obj
    [("origin".data, Json.str origin),
     ("destination".data, Json.str destination),
     ("depart_date".data, Json.str depart),
     ("return_date".data, optStrJson return_date),
     ("non_stop".data, Json.bool non_stop),
     ("cabin".data, optStrJson cabin),
     ("seats".data, Json.int seats),
     ("currency".data, Json.str currency)]

/-- The clarification JSON for searches that found no flights (agent.py
lines 708-726); the non-ASCII escapes reproduce the source's literal
characters. -/
def flightsNoneJson (qp : Json) : Json :=
  Json.obj
    [(errorK, Json.str "No flights found for the given parameters".data),
     (upnK, Json.bool true),
     (sqK, Json.arr
       [Json.str "Are you open to connections or different times?".data,
        Json.str "What‚Äôs your max budget for flights?".data,
        Json.str "Should I expand the date window by ¬±1 day?".data]),
     (queryParsedK, qp)]

/-- The raising part of the try-block of `search_real_flights` after the
fields are determined: call the wrapper, coerce the response, and shrink
each bucket to at most three entries. -/
def flightsBuckets (currency : PyStr) (wrapper : Except PyStr Json) :
    Except PyStr (List Json × List Json × List Json × List Json) := do
  let data0 ← wrapper
  let data :=
    match data0 with
    | Json.str s =>
        (match json_loads s with
         | Except.ok v => v
         | Except.error _ => Json.arr [])
    | other => other
  let n := coerce_results data
  let best ← shrink currency n.1
  let other ← shrink currency n.2.1
  let bestR ← shrink currency n.2.2.1
  let otherR ← shrink currency n.2.2.2
  Except.ok (best, other, bestR, otherR)

/-- The `query_parsed` payload built from the interpreted fields. -/
def flightsQP (parsedOrigin parsedDestination depart_date return_date : Option PyStr)
    (non_stop : Bool) (cabin : Option PyStr) (seats : Int) (currency : PyStr)
    (city : PyStr) : Json :=
  queryParsedJson ((resolveOrigin parsedOrigin city).getD []) (parsedDestination.getD [])
    (depart_date.getD []) return_date non_stop cabin seats currency

/-- Model of `search_real_flights` (agent.py lines 452-746).  The inputs
`parsedOrigin`, `parsedDestination`, `depart_date`, `return_date`,
`non_stop`, `cabin`, `seats` and `currency` stand for the results of the
regular-expression extraction from the query text (lines 471-504); `city`
is `current_profile.city`; `wrapper` is the outcome of the `find_flights`
call (which the function reaches only when origin, destination and depart
date are all determined).  Any exception in the try-block is caught and
converted to `{"error": str(e), "user_prompt_needed": true}`. -/
def search_real_flights (parsedOrigin parsedDestination depart_date return_date : Option PyStr)
    (non_stop : Bool) (cabin : Option PyStr) (seats : Int) (currency : PyStr)
    (city : PyStr) (wrapper : Except PyStr Json) : Json :=
  if ¬ optTruthy (resolveOrigin parsedOrigin city) ∨ ¬ optTruthy parsedDestination ∨
      ¬ optTruthy depart_date then
    flightsMissingJson (resolveOrigin parsedOrigin city) city
  else
    match flightsBuckets currency wrapper with
    | Except.error e => Json.obj [(errorK, Json.str e), (upnK, Json.bool true)]
    | Except.ok (best, other, bestR, otherR) =>
        if best.isEmpty ∧ other.isEmpty ∧ bestR.isEmpty ∧ otherR.isEmpty then
          flightsNoneJson (flightsQP parsedOrigin parsedDestination depart_date
            return_date non_stop cabin seats currency city)
        else
          Json.obj [(queryParsedK, flightsQP parsedOrigin parsedDestination depart_date
              return_date non_stop cabin seats currency city),
            (resultsK, Json.obj
              [("best".data, Json.arr best), ("other".data, Json.arr other),
               ("best_return".data, Json.arr bestR), ("other_return".data, Json.arr otherR)])]

/-! The hotel Search Result Normalizer (`search_real_hotels`, agent.py
lines 138-214).  The SerpApi call is modelled by the input `resp` (its
`Except.error` case models an exception raised by the call); everything
after it is translated from the source. -/

/-- Python `x[:n]` slicing: lists and strings slice, everything else raises
`TypeError`. -/
def pySliceTake (n : Nat) : Json → Except PyStr Json
  | Json.arr l => Except.ok (Json.arr (l.take n))
  | Json.str s => Except.ok (Json.str (s.take n))
  | _ => Except.error typeError

/-- Key string for "name". -/
def nameK : PyStr := "name".data

/-- Key string for "hotels". -/
def hotelsK : PyStr := "hotels".data

/-- Model of the `norm(p)` hotel-card builder (agent.py lines 162-194). -/
def hotelNorm (p : Json) : Except PyStr Dict := do
  match p with
  | Json.obj pd => do
      let price_info := pyOr (pyGet pd "rate_per_night".data)
          (pyOr (pyGet pd "price".data) (Json.obj []))
      let e1 ← jget price_info "extracted_lowest".data
      let extracted ← pyOrM e1 (do
        let e2 ← jget price_info "extracted_price".data
        pyOrM e2 (Except.ok (pyGet pd "extracted_price".data)))
      let c1 ← jget price_info "currency".data
      let currency ← pyOrM c1
        (Except.ok (pyOr (pyGet pd "currency".data) (Json.str "USD".data)))
      let t1 ← jget price_info "lowest".data
      let price_text ← pyOrM t1 (do
        let t2 ← jget price_info "display".data
        pyOrM t2 (Except.ok (pyOr (pyGet pd "price_qualifier".data)
          (pyOr (pyGet pd "price".data)
            (if pyTruthy extracted then
               Json.str (pyStr extracted ++ ' ' :: pyStr currency)
             else Json.null)))))
      let coords := pyOr (pyGet pd "gps_coordinates".data) (Json.obj [])
      let lat ← jget coords "latitude".data
      let lon ← jget coords "longitude".data
      let link := pyOr (pyGet pd "link".data)
          (pyOr (pyGet pd "all_options_link".data) (pyGet pd "booking_link".data))
      Except.ok
        [(nameK, pyGet pd "name".data),
         ("description".data, pyGet pd "description".data),
         ("price_per_night".data, extracted),
         ("price_text".data, price_text),
         ("currency".data, currency),
         ("rating".data, pyOr (pyGet pd "overall_rating".data) (pyGet pd "rating".data)),
         ("reviews".data, pyGet pd "reviews".data),
         ("amenities".data, pyGet pd "amenities".data),
         ("link".data, link),
         ("latitude".data, lat),
         ("longitude".data, lon),
         ("address".data, pyGet pd "address".data),
         ("neighborhood".data, pyGet pd "neighborhood".data)]
  | _ => Except.error attrError

/-- Fold `hotelNorm` over the sliced properties. -/
def hotelsNormAll : List Json → Except PyStr (List Dict)
  | [] => Except.ok []
  | p :: rest => do
      let h ← hotelNorm p
      let r ← hotelsNormAll rest
      Except.ok (h :: r)

/-- The clarification JSON for hotel searches that found nothing (agent.py
lines 200-208; the non-ASCII sequences reproduce the source's literal
characters). -/
def hotelsNoneJson : Json :=
  Json.obj
    [(errorK, Json.str "No hotels found for that query".data),
     (upnK, Json.bool true),
     (sqK, Json.arr
       [Json.str "What‚Äôs your nightly budget cap (USD)?".data,
        Json.str "Do you want downtown or near the airport?".data,
        Json.str "Do you prefer 3‚òÖ, 4‚òÖ, or 5‚òÖ?".data])]

/-- The raising part of the try-block of `search_real_hotels`: take the
first eight properties and normalise them. -/
def hotelsCards (resp : Except PyStr Json) : Except PyStr (List Dict) := do
  let results ← resp
  let propsV ← jgetD results "properties".data (Json.arr [])
  let sliced ← pySliceTake 8 propsV
  let propList ← pyIter sliced
  hotelsNormAll propList

/-- Model of `search_real_hotels` (agent.py lines 138-214): the normalised
non-empty hotel list (at most five entries with a truthy name), the
no-results clarifier, or — for any exception raised inside the try-block —
`{"error": str(e)}` with no other fields. -/
def search_real_hotels (resp : Except PyStr Json) : Json :=
  match hotelsCards resp with
  | Except.error e => Json.obj [(errorK, Json.str e)]
  | Except.ok cards =>
      if ((cards.filter (fun h => pyTruthy (pyGet h nameK))).take 5).isEmpty then
        hotelsNoneJson
      else
        Json.obj [(hotelsK,
          Json.arr (((cards.filter (fun h => pyTruthy (pyGet h nameK))).take 5).map
            Json.obj))]

/-! The event Search Result Normalizer (`search_real_events`, agent.py
lines 218-449) and its helpers.  The three SerpApi calls are modelled by
the inputs `respA`/`respB`/`respC`; the date-range extraction from the
query text (lines 259-281), which only parameterises those external calls
but can itself raise on a malformed month/day, is modelled by the input
`dateRangeStep`. -/

/-- The source's literal dash sequence (the mojibake bytes standing for an
en dash in agent.py lines 260, 266, 307 and 308). -/
def dashSeq : PyStr := "‚Äì".data

/-- The source's literal euro sequence (agent.py lines 320 and 324). -/
def euroSeq : PyStr := "‚Ç¨".data

/-- The source's literal pound sequence (agent.py lines 320 and 324). -/
def poundSeq : PyStr := "¬£".data

/-- Zero-padded two-digit decimal. -/
def pad2 (n : Nat) : PyStr := if n < 10 then '0' :: natRepr n else natRepr n

/-- Zero-padded four-digit decimal. -/
def pad4 (n : Nat) : PyStr :=
  if n < 10 then '0' :: '0' :: '0' :: natRepr n
  else if n < 100 then '0' :: '0' :: natRepr n
  else if n < 1000 then '0' :: natRepr n
  else natRepr n

/-- `strftime("%Y-%m-%d")`. -/
def fmtYMD (y mo d : Nat) : PyStr := pad4 y ++ '-' :: pad2 mo ++ '-' :: pad2 d

/-- Abbreviated month names (`%b`), lowercased for the case-insensitive
match `strptime` performs. -/
def monthAbbrevs : List (PyStr × Nat) :=
  [("jan".data, 1), ("feb".data, 2), ("mar".data, 3), ("apr".data, 4),
   ("may".data, 5), ("jun".data, 6), ("jul".data, 7), ("aug".data, 8),
   ("sep".data, 9), ("oct".data, 10), ("nov".data, 11), ("dec".data, 12)]

/-- Full month names (`%B`), longest first as in `strptime`'s generated
alternation. -/
def monthFulls : List (PyStr × Nat) :=
  [("september".data, 9), ("february".data, 2), ("november".data, 11),
   ("december".data, 12), ("january".data, 1), ("october".data, 10),
   ("august".data, 8), ("march".data, 3), ("april".data, 4),
   ("june".data, 6), ("july".data, 7), ("may".data, 5)]

/-- Match a month name (case-insensitively) at the head of the input. -/
def matchMonth (names : List (PyStr × Nat)) (s : PyStr) : Option (Nat × PyStr) :=
  names.findSome? (fun nv =>
    if nv.1.isPrefixOf (pyLower s) then some (nv.2, s.drop nv.1.length) else none)

/-- Model of `datetime.strptime(s, "%b %d %Y")` / `"%B %d %Y"` (month-name
table supplied): month name, whitespace, one- or two-digit day, whitespace,
four-digit year, nothing else, with the `datetime` range checks. -/
def strptimeMonDY (names : List (PyStr × Nat)) (s : PyStr) : Option (Nat × Nat × Nat) :=
  match matchMonth names s with
  | none => none
  | some (mo, r1) =>
      let r2 := r1.dropWhile isWsChar
      if r2.length = r1.length then none
      else
        match parseField12 (fun v => 1 ≤ v ∧ v ≤ 31) (fun v => 1 ≤ v) r2 with
        | none => none
        | some (d, r3) =>
            let r4 := r3.dropWhile isWsChar
            if r4.length = r3.length then none
            else
              match parse4Digits r4 with
              | none => none
              | some (y, r5) =>
                  if r5.isEmpty ∧ 1 ≤ y ∧ (d : Int) ≤ daysInMonth y mo then
                    some (y, mo, d)
                  else none

/-- Exact `^\d{4}-\d{2}-\d{2}$` shape test (`re.match` in
`add_year_if_missing`). -/
def isExactYMDShape (s : PyStr) : Bool :=
  match s with
  | [a, b, c, d, ch1, e, f, ch2, g, h] =>
      isDigitCh a ∧ isDigitCh b ∧ isDigitCh c ∧ isDigitCh d ∧ ch1 = '-' ∧
      isDigitCh e ∧ isDigitCh f ∧ ch2 = '-' ∧ isDigitCh g ∧ isDigitCh h
  | _ => false

/-- The tail of `add_year_if_missing` after a successful parse: roll the
year forward when the date is more than 30 days in the past; the
`dt.replace(year=dt.year+1)` raises `ValueError` when the day does not
exist in the new year (Feb 29) or the year leaves `datetime`'s range. -/
def addYearFinish (nowSec : Int) (y mo d : Nat) : Except PyStr Json :=
  if dtToSec y mo d 0 0 0 < nowSec - 30 * 86400 then
    if y + 1 ≤ 9999 ∧ (d : Int) ≤ daysInMonth ((y : Int) + 1) mo then
      Except.ok (Json.str (fmtYMD (y + 1) mo d))
    else Except.error ('V' :: "alueError".data)
  else Except.ok (Json.str (fmtYMD y mo d))

/-- Model of `add_year_if_missing(md)` (agent.py lines 284-298): `None` for
falsy input, the string itself when it already looks like an ISO date,
otherwise parse `"<md> <current year>"` with `%b %d %Y` then `%B %d %Y`
(`None` when both fail) and roll the year forward when stale. -/
def add_year_if_missing (nowYear : Int) (nowSec : Int) (md : Json) : Except PyStr Json :=
  if ¬ pyTruthy md then Except.ok Json.null
  else
    match md with
    | Json.str s =>
        if isExactYMDShape s then Except.ok (Json.str s)
        else
          let input := s ++ ' ' :: intRepr nowYear
          match strptimeMonDY monthAbbrevs input with
          | some (y, mo, d) => addYearFinish nowSec y mo d
          | none =>
              match strptimeMonDY monthFulls input with
              | some (y, mo, d) => addYearFinish nowSec y mo d
              | none => Except.ok Json.null
    | _ => Except.error typeError

/-- Match `[0-9]{1,2}:[0-9]{2}` at the head of the input (greedy hour with
the single backtrack the regular expression performs). -/
def matchTimeCore : PyStr → Option (PyStr × PyStr)
  | a :: b :: c :: d :: e :: rest =>
      if isDigitCh a ∧ isDigitCh b ∧ c = ':' ∧ isDigitCh d ∧ isDigitCh e then
        some ([a, b, ':', d, e], rest)
      else if isDigitCh a ∧ b = ':' ∧ isDigitCh c ∧ isDigitCh d then
        some ([a, ':', c, d], e :: rest)
      else none
  | [a, b, c, d] =>
      if isDigitCh a ∧ b = ':' ∧ isDigitCh c ∧ isDigitCh d then
        some ([a, ':', c, d], [])
      else none
  | _ => none

/-- Match `\s*[AP]M` at the head of the input, returning the matched text
(the whitespace is inside the capture group). -/
def matchAmPm (s : PyStr) : Option PyStr :=
  let ws := s.takeWhile isWsChar
  match s.dropWhile isWsChar with
  | p :: m :: _ =>
      if (p = 'A' ∨ p = 'P') ∧ m = 'M' then some (ws ++ [p, m]) else none
  | _ => none

/-- Leftmost search for the source's end-time pattern
`‚Äì\s*([0-9]{1,2}:[0-9]{2}\s*[AP]M)` (agent.py line 308), returning the
capture group. -/
def whenSearch : Nat → PyStr → Option PyStr
  | 0, _ => none
  | fuel + 1, s =>
      let next :=
        match s with
        | [] => none
        | _ :: rest => whenSearch fuel rest
      if dashSeq.isPrefixOf s then
        let after := (s.drop dashSeq.length).dropWhile isWsChar
        match matchTimeCore after with
        | some (t, r2) =>
            (match matchAmPm r2 with
             | some suffix => some (t ++ suffix)
             | none => next)
        | none => next
      else next

/-- Three uppercase letters at the head of the input. -/
def take3Upper : PyStr → Option (PyStr × PyStr)
  | a :: b :: c :: rest =>
      if ('A' ≤ a ∧ a ≤ 'Z') ∧ ('A' ≤ b ∧ b ≤ 'Z') ∧ ('A' ≤ c ∧ c ≤ 'Z') then
        some ([a, b, c], rest)
      else none
  | _ => none

/-- Match `\s*([0-9]+(?:\.[0-9]+)?)` after a currency marker. -/
def priceTail (rest : PyStr) : Option PyStr :=
  let r := rest.dropWhile isWsChar
  let (ds, r2) := takeDigits r
  if ds.isEmpty then none
  else
    match r2 with
    | '.' :: r3 =>
        let (fs, _) := takeDigits r3
        if fs.isEmpty then some ds else some (ds ++ '.' :: fs)
    | _ => some ds

/-- Match the source's price pattern `([A-Z]{3}|\$|‚Ç¨|¬£)?\s*([0-9]+(?:\.[0-9]+)?)`
at one position: the currency alternatives in order, then the empty option. -/
def priceMatchAt (s : PyStr) : Option (Option PyStr × PyStr) :=
  let withSym : List (Option (PyStr × PyStr)) :=
    [take3Upper s,
     if "$".data.isPrefixOf s then some ("$".data, s.drop 1) else none,
     if euroSeq.isPrefixOf s then some (euroSeq, s.drop euroSeq.length) else none,
     if poundSeq.isPrefixOf s then some (poundSeq, s.drop poundSeq.length) else none]
  match withSym.findSome? (fun o =>
    o.bind (fun pr => (priceTail pr.2).map (fun num => (some pr.1, num)))) with
  | some r => some r
  | none => (priceTail s).map (fun num => ((none : Option PyStr), num))

/-- Leftmost search for the price pattern. -/
def priceRegexSearch : Nat → PyStr → Option (Option PyStr × PyStr)
  | 0, _ => none
  | fuel + 1, s =>
      match priceMatchAt s with
      | some r => some r
      | none =>
          match s with
          | [] => none
          | _ :: rest => priceRegexSearch fuel rest

/-- Python `float(num)` of the matched digit group, as a JSON number. -/
def floatOfDigits (numStr : PyStr) : Json :=
  match pySplit ".".data numStr with
  | [ip] => Json.num (Int.ofNat (digitsToNat ip)) "0".data none
  | ip :: fp :: _ => Json.num (Int.ofNat (digitsToNat ip)) fp none
  | [] => Json.num 0 "0".data none

/-- The currency symbol mapping `{"$":"USD","‚Ç¨":"EUR","¬£":"GBP"}` with
fallback `symbol_or_ccy or "USD"`. -/
def currencyFromSymbol (sym : Option PyStr) : Json :=
  match sym with
  | some s =>
      if s = "$".data then Json.str "USD".data
      else if s = euroSeq then Json.str "EUR".data
      else if s = poundSeq then Json.str "GBP".data
      else Json.str s
  | none => Json.str "USD".data

/-- Value of a key of a JSON object (`null` outside objects; every caller
passes an object). -/
def cardGet (j : Json) (key : PyStr) : Json :=
  match j with
  | Json.obj d => pyGet d key
  | _ => Json.null

/-- The ticket-info fold of `parse_price`: the first truthy price text and
link, with Python's lazy `or` (`t.get` is reached only while the
accumulator is still falsy). -/
def ticketFold : List Json → Json → Json → Except PyStr (Json × Json)
  | [], pt, lk => Except.ok (pt, lk)
  | t :: rest, pt, lk => do
      let pt2 ← pyOrM pt (jget t "price".data)
      let lk2 ← pyOrM lk (jget t "link".data)
      ticketFold rest pt2 lk2

/-- Model of `parse_price(e)` (agent.py lines 313-325): extracted amount,
currency, price text and ticket link. -/
def parse_price (evd : Dict) : Except PyStr (Json × Json × Json × Json) := do
  let tix := pyOr (pyGet evd "ticket_info".data) (Json.arr [])
  let ts ← pyIter tix
  let (price_text, link) ← ticketFold ts Json.null Json.null
  if pyTruthy price_text then
    match price_text with
    | Json.str pts =>
        (match priceRegexSearch (pts.length + 1) pts with
         | some (sym, num) =>
             Except.ok (floatOfDigits num, currencyFromSymbol sym, price_text, link)
         | none => Except.ok (Json.null, Json.null, price_text, link))
    | _ => Except.error typeError
  else Except.ok (Json.null, Json.null, price_text, link)

/-- Model of `parse_times(e)` (agent.py lines 300-311): start/end dates
(year-completed), start time, and end time (recovered from the `when`
text when missing). -/
def parse_times (nowYear nowSec : Int) (evd : Dict) :
    Except PyStr (Json × Json × Json × Json) := do
  let dJ := pyOr (pyGetD evd "date".data (Json.obj [])) (Json.obj [])
  let sdRaw ← jget dJ "start_date".data
  let start_date ← add_year_if_missing nowYear nowSec sdRaw
  let edRaw1 ← jget dJ "end_date".data
  let edRaw ← pyOrM edRaw1 (jget dJ "start_date".data)
  let end_date ← add_year_if_missing nowYear nowSec edRaw
  let start_time ← jget dJ "start_time".data
  let et0 ← jget dJ "end_time".data
  let whenV ← jget dJ "when".data
  let when2 := pyOr whenV (Json.str [])
  let end_time ←
    if ¬ pyTruthy et0 then
      match when2 with
      | Json.str ws =>
          if pyIn dashSeq ws then
            (match whenSearch (ws.length + 1) ws with
             | some t => Except.ok (Json.str t)
             | none => Except.ok et0)
          else Except.ok et0
      | _ => Except.error typeError
    else Except.ok et0
  Except.ok (start_date, end_date, start_time, end_time)

/-- Normalise one raw event (agent.py lines 329-352); `none` models the
`continue` on non-dict entries. -/
def eventNormOne (nowYear nowSec : Int) (ev : Json) : Except PyStr (Option Json) :=
  match ev with
  | Json.obj evd => do
      let tt ← parse_times nowYear nowSec evd
      let pp ← parse_price evd
      let venueD : Dict :=
        match pyGet evd "venue".data with
        | Json.obj vd => vd
        | _ => []
      let coords := pyOr (pyGet venueD "gps_coordinates".data) (Json.obj [])
      let lat ← jget coords "latitude".data
      let lon ← jget coords "longitude".data
      Except.ok (some (Json.obj
        [(titleK, pyGet evd titleK),
         ("description".data, pyGet evd "description".data),
         ("start_date".data, tt.1), ("end_date".data, tt.2.1),
         ("start_time".data, tt.2.2.1), ("end_time".data, tt.2.2.2),
         ("venue".data, Json.obj
           [(nameK, pyGet venueD nameK),
            ("address".data, pyGet venueD "address".data),
            ("latitude".data, lat),
            ("longitude".data, lon)]),
         ("price".data, pp.1), ("price_text".data, pp.2.2.1),
         ("currency".data, pyOr pp.2.1 (Json.str "USD".data)),
         ("link".data, pyOr pp.2.2.2 (pyGet evd "link".data)),
         ("source".data, pyOr (pyGet evd "source".data) (Json.str "google_events".data))]))
  | _ => Except.ok none

/-- Normalise a list of raw events. -/
def eventsNormAll (nowYear nowSec : Int) : List Json → Except PyStr (List Json)
  | [] => Except.ok []
  | ev :: rest => do
      let c ← eventNormOne nowYear nowSec ev
      let r ← eventsNormAll nowYear nowSec rest
      Except.ok
        (match c with
         | some j => j :: r
         | none => r)

/-- Strict `strptime(s, "%Y-%m-%d")` as seconds since the epoch. -/
def parseYMDsec (s : PyStr) : Option Int :=
  match parse4Digits s with
  | none => none
  | some (y, r1) =>
      match expectChar '-' r1 with
      | none => none
      | some r2 =>
          match parseField12 (fun v => 1 ≤ v ∧ v ≤ 12) (fun v => 1 ≤ v) r2 with
          | none => none
          | some (mo, r3) =>
              match expectChar '-' r3 with
              | none => none
              | some r4 =>
                  match parseField12 (fun v => 1 ≤ v ∧ v ≤ 31) (fun v => 1 ≤ v) r4 with
                  | none => none
                  | some (d, r5) =>
                      if r5.isEmpty ∧ 1 ≤ y ∧ (d : Int) ≤ daysInMonth y mo then
                        some (dtToSec y mo d 0 0 0)
                      else none

/-- Seconds of a trip-date or event-date JSON value (`none` models the
`strptime` exception on non-strings or malformed strings). -/
def ymdSecOfJson : Json → Option Int
  | Json.str s => parseYMDsec s
  | _ => none

/-- The trip-date filter of `normalize` (agent.py lines 356-379): applied
only when both trip dates are truthy and parse (a failure there is
swallowed, leaving the list unchanged); events whose date fails to parse
are kept, events with a falsy date are dropped by the loop. -/
def eventsTripFilter (tripStart tripEnd : Json) (out : List Json) : List Json :=
  if pyTruthy tripStart && pyTruthy tripEnd then
    match ymdSecOfJson tripStart, ymdSecOfJson tripEnd with
    | some ts, some te =>
        out.filter (fun ev =>
          let sd := cardGet ev "start_date".data
          if pyTruthy sd then
            match ymdSecOfJson sd with
            | some d => decide (ts ≤ d) && decide (d ≤ te + 7 * 86400)
            | none => true
          else false)
    | _, _ => out
  else out

/-- Model of `normalize(events_raw)` (agent.py lines 327-381). -/
def eventsNormalize (tripStart tripEnd : Json) (nowYear nowSec : Int)
    (events_raw : Json) : Except PyStr (List Json) := do
  let evs ← pyIter (pyOr events_raw (Json.arr []))
  let cards ← eventsNormAll nowYear nowSec evs
  let out := cards.filter (fun n =>
    pyTruthy (cardGet n titleK) && pyTruthy (cardGet n "start_date".data))
  Except.ok (eventsTripFilter tripStart tripEnd out)

/-- One web-fallback card (agent.py lines 422-430). -/
def webCardOne (rd : Dict) : Json :=
  Json.obj
    [(titleK, pyGet rd titleK),
     ("description".data, pyGet rd "snippet".data),
     ("start_date".data, Json.null), ("end_date".data, Json.null),
     ("start_time".data, Json.null), ("end_time".data, Json.null),
     ("venue".data, Json.obj
       [(nameK, Json.null), ("address".data, Json.null),
        ("latitude".data, Json.null), ("longitude".data, Json.null)]),
     ("price".data, Json.null), ("price_text".data, Json.null),
     ("currency".data, Json.str "USD".data),
     ("link".data, pyGet rd "link".data),
     ("source".data, Json.str "web".data)]

/-- The web-fallback normalisation (agent.py lines 414-431): dict results
with a truthy title and link. -/
def webCards : List Json → List Json
  | [] => []
  | Json.obj rd :: rest =>
      if pyTruthy (pyGet rd titleK) && pyTruthy (pyGet rd "link".data) then
        webCardOne rd :: webCards rest
      else webCards rest
  | _ :: rest => webCards rest

/-- The `CITY_CANON` table (agent.py lines 238-246), in insertion order. -/
def cityCanon : List (PyStr × PyStr) :=
  [("los angeles".data, "Los Angeles, CA".data),
   ("san francisco".data, "San Francisco, CA".data),
   ("new york".data, "New York, NY".data),
   ("seattle".data, "Seattle, WA".data),
   ("boston".data, "Boston, MA".data),
   ("chicago".data, "Chicago, IL".data),
   ("austin".data, "Austin, TX".data),
   ("denver".data, "Denver, CO".data),
   ("miami".data, "Miami, FL".data),
   ("las vegas".data, "Las Vegas, NV".data),
   ("san diego".data, "San Diego, CA".data),
   ("portland".data, "Portland, OR".data),
   ("phoenix".data, "Phoenix, AZ".data),
   ("dallas".data, "Dallas, TX".data),
   ("houston".data, "Houston, TX".data),
   ("atlanta".data, "Atlanta, GA".data),
   ("washington".data, "Washington, DC".data),
   ("san jose".data, "San Jose, CA".data)]

/-- The target city selection (agent.py lines 247-257): the first canonical
city mentioned in the query, else the first one or two comma parts of the
profile city. -/
def targetCity (query city : PyStr) : PyStr :=
  let qlow := pyLower query
  match cityCanon.find? (fun kc => pyIn kc.1 qlow) with
  | some kc => kc.2
  | none =>
      let base := pySplit ",".data (if city.isEmpty then "United States".data else city)
      match base with
      | b0 :: b1 :: _ => pyStrip b0 ++ ',' :: ' ' :: pyStrip b1
      | [b0] => pyStrip b0
      | [] => []

/-- The clarification JSON for event searches that found nothing (agent.py
lines 435-443). -/
def eventsNoneJson (city : PyStr) : Json :=
  Json.obj
    [(errorK, Json.str ("No events found near ".data ++ city)),
     (upnK, Json.bool true),
     (sqK, Json.arr
       [Json.str ("Broaden beyond ".data ++ city ++ " or include nearby neighborhoods?".data),
        Json.str "Any specific event types (concerts, comedy, sports, museums)?".data,
        Json.str "Extend the date window by ¬±1 day?".data])]

/-- The try-block of `search_real_events`: tier A (strict), tier B
(relaxed) when A yields nothing, then the ticketing-site web fallback. -/
def eventsCards (tripStart tripEnd : Json) (nowYear nowSec : Int)
    (dateRangeStep : Except PyStr Unit) (respA respB respC : Except PyStr Json) :
    Except PyStr (List Json) := do
  let _ ← dateRangeStep
  let resA ← respA
  let rawA ← jget resA "events_results".data
  let evA ← eventsNormalize tripStart tripEnd nowYear nowSec rawA
  if ¬ evA.isEmpty then Except.ok evA
  else do
    let resB ← respB
    let rawB ← jget resB "events_results".data
    let evB ← eventsNormalize tripStart tripEnd nowYear nowSec rawB
    if ¬ evB.isEmpty then Except.ok evB
    else do
      let resC ← respC
      let organicV ← jgetD resC "organic_results".data (Json.arr [])
      let organic ← pyIter (pyOr organicV (Json.arr []))
      Except.ok (webCards organic)

/-- Model of `search_real_events` (agent.py lines 218-449): at most twelve
normalised events, the no-results clarifier, or — for any exception raised
inside the try-block — `{"error": str(e), "user_prompt_needed": true}`. -/
def search_real_events (query city : PyStr) (tripStart tripEnd : Json)
    (nowYear nowSec : Int) (dateRangeStep : Except PyStr Unit)
    (respA respB respC : Except PyStr Json) : Json :=
  match eventsCards tripStart tripEnd nowYear nowSec dateRangeStep respA respB respC with
  | Except.error e => Json.obj [(errorK, Json.str e), (upnK, Json.bool true)]
  | Except.ok evs =>
      if (evs.take 12).isEmpty then eventsNoneJson (targetCity query city)
      else Json.obj [("events".data, Json.arr (evs.take 12))]

/-! The request handlers (`handle_plan_request`, agent.py lines 949-1277,
and `handle_refine_request`, lines 1282-1373).  The model calls and the
tool-execution loop are injected: `claudePlanText` is the planning model
call's outcome (its continuation text, or the exception message),
`execLogs` the log lines the execution stage appends, and `synthTry` /
`tryBlock` the outcome of the synthesis / refinement try-block (the fully
post-processed response, or the message of the exception that escaped).
The error-path constructions are translated literally from the source. -/

/-- The response model (`AgentPlanResponse`, agent.py lines 67-72). -/
structure AgentPlanResponse where
  status : PyStr
  itinerary : List Json
  logs : List Json
  locations : List Json
  options : List Json
deriving DecidableEq

/-- The log line `"Planning with Claude…"` (source's literal bytes). -/
def planningWithClaudeMsg : PyStr := "Planning with Claude‚Ä¶".data

/-- The log line `"Executing tool plan…"` (source's literal bytes). -/
def executingToolPlanMsg : PyStr := "Executing tool plan‚Ä¶".data

/-- Model of `handle_plan_request`: the planning phase applies the array
extractor to the model text (any exception yields the planning-phase error
response, agent.py lines 1011-1013), the execution stage appends its log
lines, and any exception in the synthesis try-block yields the
synthesis-phase error response (lines 1275-1277). -/
def handle_plan_request (claudePlanText : Except PyStr PyStr) (execLogs : List Json)
    (synthTry : Except PyStr AgentPlanResponse) : AgentPlanResponse :=
  let logs0 : List Json := [Json.str planningWithClaudeMsg]
  match (do
    let t ← claudePlanText
    safe_json_from_prefill_array t) with
  | Except.error e =>
      { status := "error".data, itinerary := [],
        logs := logs0 ++ [Json.str ("Error in planning phase: ".data ++ e)],
        locations := [], options := [] }
  | Except.ok tool_plan =>
      let logs1 := logs0 ++
        [Json.str ("Plan steps: ".data ++ pyStr tool_plan),
         Json.str executingToolPlanMsg] ++ execLogs
      match synthTry with
      | Except.error e =>
          { status := "error".data, itinerary := [],
            logs := logs1 ++ [Json.str ("Error in synthesis phase: ".data ++ e)],
            locations := [], options := [] }
      | Except.ok resp => resp

/-- Model of `handle_refine_request`: any exception in the try-block yields
an error response echoing back the request's itinerary and locations
(agent.py lines 1366-1373). -/
def handle_refine_request (reqItinerary reqLocations : List Json)
    (tryBlock : Except PyStr AgentPlanResponse) : AgentPlanResponse :=
  match tryBlock with
  | Except.ok r => r
  | Except.error e =>
      { status := "error".data, itinerary := reqItinerary,
        logs := [Json.str ("Error in refinement: ".data ++ e)],
        locations := reqLocations, options := [] }

/-! Concrete fixtures used by the counterexamples and witnesses. -/

/-- The "Museum" item of the spec's Scenario A. -/
def museumItem : Dict :=
  [(titleK, Json.str "Museum".data),
   (startTimeK, Json.str "2025-11-21T10:00:00".data),
   (endTimeK, Json.str "2025-11-21T11:30:00".data)]

/-- The "Lunch" item of the spec's Scenario A (no end time). -/
def lunchItem : Dict :=
  [(titleK, Json.str "Lunch".data),
   (startTimeK, Json.str "2025-11-21T11:45:00".data)]

/-- The Scenario A plan object: the two items, empty logs and locations. -/
def scenarioPlan : Dict :=
  [("status".data, Json.str "success".data),
   (itineraryK, Json.arr [Json.obj museumItem, Json.obj lunchItem]),
   (logsK, Json.arr []),
   (locationsK, Json.arr [])]

/-- The log entry Scenario A says should be produced for "Lunch". -/
def lunchConflictLog : Json :=
  Json.str ("conflict_removed: ".data ++ Char.ofNat 39 :: "Lunch".data ++
    Char.ofNat 39 :: ' ' :: "at ".data ++ "2025-11-21T11:45:00".data)

/-- The truncated extractor input of the spec's truncation-recovery
property: `[{"a":1},{"b":2}` (braces written as \x7b/\x7d). -/
def truncatedArrayText : PyStr := "[\x7b\"a\":1\x7d,\x7b\"b\":2".data

/-- The fenced, prose-prefixed synthesis output of the spec's Scenario D. -/
def fencedObjectText : PyStr :=
  "Sure! ```json\n\x7b\"status\":\"success\"\x7d\n```".data

/-- An item that genuinely overlaps the Museum (starts 10:30 during
Museum's 10:00-11:30 slot). -/
def teaItem : Dict :=
  [(titleK, Json.str "Teatime".data),
   (startTimeK, Json.str "2025-11-21T10:30:00".data)]

/-- A plan whose second item conflicts with the first. -/
def conflictPlan : Dict :=
  [("status".data, Json.str "success".data),
   (itineraryK, Json.arr [Json.obj museumItem, Json.obj teaItem]),
   (logsK, Json.arr []),
   (locationsK, Json.arr [])]

/-- The scheduler's output on `conflictPlan`: Teatime dropped and logged. -/
def conflictPlanOut : Dict :=
  [("status".data, Json.str "success".data),
   (itineraryK, Json.arr [Json.obj museumItem]),
   (logsK, Json.arr [Json.str ("conflict_removed: ".data ++ Char.ofNat 39 ::
     "Teatime".data ++ Char.ofNat 39 :: ' ' :: "at ".data ++
     "2025-11-21T10:30:00".data)]),
   (locationsK, Json.arr [])]

/-- Lookup inside an arbitrary JSON value (`none` outside objects). -/
def jsonLookup (j : Json) (key : PyStr) : Option Json :=
  match j with
  | Json.obj d => lookupKey d key
  | _ => none

/-! Helper lemmas about dicts, the item-list view, the stable sort and the
greedy keep/drop walk. -/

theorem lookup_dictSet_self (d : Dict) (k : PyStr) (v : Json) :
    lookupKey (dictSet d k v) k = some v := by
  induction d with
  | nil => simp [dictSet, lookupKey]
  | cons kv rest ih =>
      obtain ⟨k1, v1⟩ := kv
      by_cases h : k1 = k
      · simp [dictSet, h, lookupKey]
      · simp [dictSet, h, lookupKey, ih]

theorem lookup_dictSet_ne (d : Dict) (k k2 : PyStr) (v : Json) (h : k2 ≠ k) :
    lookupKey (dictSet d k v) k2 = lookupKey d k2 := by
  have hne : k ≠ k2 := Ne.symm h
  induction d with
  | nil => simp [dictSet, lookupKey, hne]
  | cons kv rest ih =>
      obtain ⟨k1, v1⟩ := kv
      by_cases h1 : k1 = k
      · subst h1
        simp [dictSet, lookupKey, hne]
      · simp [dictSet, h1, lookupKey, ih]

theorem dictSet_lookup_eq_self (d : Dict) (k : PyStr) (v : Json)
    (h : lookupKey d k = some v) : dictSet d k v = d := by
  induction d with
  | nil => simp [lookupKey] at h
  | cons kv rest ih =>
      obtain ⟨k1, v1⟩ := kv
      by_cases h1 : k1 = k
      · subst h1
        simp [lookupKey] at h
        simp [dictSet, h]
      · simp [lookupKey, h1] at h
        simp [dictSet, h1, ih h]

theorem asItemList_map_obj (l : List Dict) :
    asItemList (l.map Json.obj) = Except.ok l := by
  induction l with
  | nil => rfl
  | cons it rest ih =>
      simp only [List.map_cons, asItemList, ih]
      rfl

theorem insertSorted_perm (x : Dict) (l : List Dict) :
    (insertSorted x l).Perm (x :: l) := by
  induction l with
  | nil => simp [insertSorted]
  | cons y ys ih =>
      by_cases hlt : keyfn y < keyfn x
      · simp only [insertSorted, hlt, if_true]
        exact (ih.cons y).trans (List.Perm.swap x y ys)
      · simp [insertSorted, hlt]

theorem mem_insertSorted {b x : Dict} {l : List Dict}
    (h : b ∈ insertSorted x l) : b = x ∨ b ∈ l := by
  have := (insertSorted_perm x l).mem_iff.mp h
  simpa using this

theorem insertSorted_pairwise (x : Dict) (l : List Dict)
    (h : List.Pairwise (fun a b => keyfn a ≤ keyfn b) l) :
    List.Pairwise (fun a b => keyfn a ≤ keyfn b) (insertSorted x l) := by
  induction l with
  | nil => simp [insertSorted]
  | cons y ys ih =>
      rw [List.pairwise_cons] at h
      by_cases hlt : keyfn y < keyfn x
      · simp only [insertSorted, hlt, if_true]
        rw [List.pairwise_cons]
        refine ⟨?_, ih h.2⟩
        intro b hb
        rcases mem_insertSorted hb with hbx | hby
        · subst hbx
          exact le_of_lt hlt
        · exact h.1 b hby
      · simp only [insertSorted, hlt, if_false]
        rw [List.pairwise_cons]
        refine ⟨?_, List.pairwise_cons.mpr h⟩
        intro b hb
        rcases List.mem_cons.mp hb with hby | hbys
        · subst hby
          exact not_lt.mp hlt
        · exact le_trans (not_lt.mp hlt) (h.1 b hbys)

theorem sortItems_pairwise (l : List Dict) :
    List.Pairwise (fun a b => keyfn a ≤ keyfn b) (sortItems l) := by
  induction l with
  | nil => simp [sortItems]
  | cons x xs ih => exact insertSorted_pairwise x (sortItems xs) ih

theorem sortItems_perm (l : List Dict) : (sortItems l).Perm l := by
  induction l with
  | nil => rfl
  | cons x xs ih => exact (insertSorted_perm x (sortItems xs)).trans (ih.cons x)

theorem insertSorted_of_le (x : Dict) (l : List Dict)
    (h : ∀ y ∈ l, keyfn x ≤ keyfn y) : insertSorted x l = x :: l := by
  cases l with
  | nil => rfl
  | cons y ys =>
      have : ¬ keyfn y < keyfn x := not_lt.mpr (h y (List.mem_cons_self y ys))
      simp [insertSorted, this]

theorem sortItems_of_sorted (l : List Dict)
    (h : List.Pairwise (fun a b => keyfn a ≤ keyfn b) l) : sortItems l = l := by
  induction l with
  | nil => rfl
  | cons x xs ih =>
      rw [List.pairwise_cons] at h
      rw [sortItems, ih h.2]
      exact insertSorted_of_le x xs h.1

theorem sched_kept_sublist : ∀ (l k0 r0 : List Dict),
    ∃ e, (l.foldl schedStep (k0, r0)).1 = k0 ++ e ∧ e.Sublist l
  | [], k0, r0 => ⟨[], by simp, List.Sublist.refl []⟩
  | x :: xs, k0, r0 => by
      simp only [List.foldl_cons, schedStep]
      by_cases hc : k0.any (fun k => conflicts x k 30)
      · simp only [hc, if_true]
        obtain ⟨e, he, hs⟩ := sched_kept_sublist xs k0 (r0 ++ [x])
        exact ⟨e, he, hs.cons x⟩
      · simp only [hc, if_false]
        obtain ⟨e, he, hs⟩ := sched_kept_sublist xs (k0 ++ [x]) r0
        refine ⟨x :: e, by simpa using he, hs.cons₂ x⟩

theorem sched_kept_pairwise : ∀ (l k0 r0 : List Dict),
    List.Pairwise (fun a b => conflicts b a 30 = false) k0 →
    List.Pairwise (fun a b => conflicts b a 30 = false) ((l.foldl schedStep (k0, r0)).1)
  | [], _, _, h => h
  | x :: xs, k0, r0, h => by
      simp only [List.foldl_cons, schedStep]
      by_cases hc : k0.any (fun k => conflicts x k 30)
      · simp only [hc, if_true]
        exact sched_kept_pairwise xs k0 (r0 ++ [x]) h
      · simp only [hc, if_false]
        apply sched_kept_pairwise
        rw [List.pairwise_append]
        refine ⟨h, List.pairwise_singleton _ _, ?_⟩
        intro a ha b hb
        have hb2 : b = x := List.mem_singleton.mp hb
        have hcf : (k0.any fun k => conflicts x k 30) = false :=
          Bool.eq_false_iff.mpr hc
        have hfa := List.any_eq_false.mp hcf a ha
        rw [hb2]
        exact Bool.eq_false_iff.mpr hfa

theorem sched_fixpoint : ∀ (l k0 r0 : List Dict),
    List.Pairwise (fun a b => conflicts b a 30 = false) (k0 ++ l) →
    l.foldl schedStep (k0, r0) = (k0 ++ l, r0)
  | [], k0, r0, _ => by simp
  | x :: xs, k0, r0, h => by
      have hx : ∀ a ∈ k0, conflicts x a 30 = false := by
        rw [List.pairwise_append] at h
        intro a ha
        exact h.2.2 a ha x (List.mem_cons_self x xs)
      have hc : (k0.any fun k => conflicts x k 30) = false :=
        List.any_eq_false.mpr (fun a ha => by simp [hx a ha])
      simp only [List.foldl_cons, schedStep, hc, Bool.false_eq_true, if_false]
      have h2 : List.Pairwise (fun a b => conflicts b a 30 = false) ((k0 ++ [x]) ++ xs) := by
        simpa [List.append_assoc] using h
      have := sched_fixpoint xs (k0 ++ [x]) r0 h2
      rw [this]
      simp

theorem itineraryK_ne_logsK : itineraryK ≠ logsK := by decide

theorem lookup_logsNormalize_ne (plan : Dict) (k : PyStr) (hk : k ≠ logsK) :
    lookupKey (logsNormalize plan) k = lookupKey plan k := by
  unfold logsNormalize
  rcases hl : lookupKey plan logsK with _ | v
  · rfl
  · cases v <;> simp [lookup_dictSet_ne _ _ _ _ hk]

theorem lookup_logsNormalize_logs (plan : Dict) :
    (lookupKey (logsNormalize plan) logsK = none ∧ lookupKey plan logsK = none) ∨
    (∃ l, lookupKey (logsNormalize plan) logsK = some (Json.arr l)) := by
  unfold logsNormalize
  rcases hl : lookupKey plan logsK with _ | v
  · exact Or.inl ⟨hl, rfl⟩
  · cases v <;> simp [lookup_dictSet_self, hl]

theorem logsNormalize_of_normal (out : Dict)
    (h : lookupKey out logsK = none ∨ ∃ l, lookupKey out logsK = some (Json.arr l)) :
    logsNormalize out = out := by
  unfold logsNormalize
  rcases h with h | ⟨l, h⟩ <;> simp [h]

theorem keptOf_sorted (items : List Dict) :
    List.Pairwise (fun a b => keyfn a ≤ keyfn b) (keptOf items) := by
  obtain ⟨e, he, hs⟩ := sched_kept_sublist (sortItems items) [] []
  unfold keptOf
  rw [he]
  simpa using (sortItems_pairwise items).sublist hs

theorem keptOf_pairwise (items : List Dict) :
    List.Pairwise (fun a b => conflicts b a 30 = false) (keptOf items) :=
  sched_kept_pairwise (sortItems items) [] [] (by simp)

theorem keptOf_fix (items : List Dict) :
    keptOf (keptOf items) = keptOf items ∧ removedOf (keptOf items) = [] := by
  have hsort : sortItems (keptOf items) = keptOf items :=
    sortItems_of_sorted _ (keptOf_sorted items)
  have hfix := sched_fixpoint (keptOf items) [] []
    (by simpa using keptOf_pairwise items)
  constructor
  · show ((sortItems (keptOf items)).foldl schedStep ([], [])).1 = keptOf items
    rw [hsort, hfix]
    simp
  · show ((sortItems (keptOf items)).foldl schedStep ([], [])).2 = []
    rw [hsort, hfix]

theorem enforceWriteBack_lookup_itin (plan : Dict) (items : List Dict) :
    lookupKey (enforceWriteBack plan items) itineraryK =
      some (Json.arr ((keptOf items).map Json.obj)) := by
  unfold enforceWriteBack
  by_cases hr : (removedOf items).isEmpty
  · simp [hr, lookup_dictSet_self]
  · simp only [hr, if_false, Bool.false_eq_true]
    rcases hlg : lookupKey (dictSet (logsNormalize plan) itineraryK
        (Json.arr ((keptOf items).map Json.obj))) logsK with _ | v
    · simp [lookup_dictSet_self]
    · cases v <;>
        simp [lookup_dictSet_ne _ _ _ _ itineraryK_ne_logsK, lookup_dictSet_self]

theorem enforceWriteBack_lookup_ne (plan : Dict) (items : List Dict) (k : PyStr)
    (h1 : k ≠ itineraryK) (h2 : k ≠ logsK) :
    lookupKey (enforceWriteBack plan items) k = lookupKey plan k := by
  unfold enforceWriteBack
  by_cases hr : (removedOf items).isEmpty
  · simp [hr, lookup_dictSet_ne _ _ _ _ h1, lookup_logsNormalize_ne _ _ h2]
  · simp only [hr, if_false, Bool.false_eq_true]
    rcases hlg : lookupKey (dictSet (logsNormalize plan) itineraryK
        (Json.arr ((keptOf items).map Json.obj))) logsK with _ | v
    · simp [lookup_dictSet_ne _ _ _ _ h1, lookup_logsNormalize_ne _ _ h2]
    · cases v <;>
        simp [lookup_dictSet_ne _ _ _ _ h1, lookup_dictSet_ne _ _ _ _ h2,
          lookup_logsNormalize_ne _ _ h2]

theorem enforceWriteBack_lookup_logs (plan : Dict) (items : List Dict) :
    lookupKey (enforceWriteBack plan items) logsK = none ∨
    ∃ l, lookupKey (enforceWriteBack plan items) logsK = some (Json.arr l) := by
  unfold enforceWriteBack
  have hl2 : lookupKey (dictSet (logsNormalize plan) itineraryK
      (Json.arr ((keptOf items).map Json.obj))) logsK = lookupKey (logsNormalize plan) logsK :=
    lookup_dictSet_ne _ _ _ _ (Ne.symm itineraryK_ne_logsK)
  by_cases hr : (removedOf items).isEmpty
  · simp only [hr, if_true]
    rw [hl2]
    rcases lookup_logsNormalize_logs plan with ⟨h1, _⟩ | ⟨l, h1⟩
    · exact Or.inl h1
    · exact Or.inr ⟨l, h1⟩
  · simp only [hr, if_false, Bool.false_eq_true]
    rcases lookup_logsNormalize_logs plan with ⟨h1, _⟩ | ⟨l, h1⟩
    · rw [hl2.trans h1]
      simp only []
      rw [hl2.trans h1]
      exact Or.inl rfl
    · rw [hl2.trans h1]
      simp [lookup_dictSet_self]

theorem asItemList_ok_eq : ∀ (l : List Json) (items : List Dict),
    asItemList l = Except.ok items → l = items.map Json.obj := by
  intro l
  induction l with
  | nil =>
      intro items h
      have h3 : Except.ok ([] : List Dict) = Except.ok items := h
      injection h3 with h2
      rw [← h2]
      rfl
  | cons j rest ih =>
      intro items h
      cases j with
      | obj kvs =>
          simp only [asItemList] at h
          rcases hr : asItemList rest with e | r
          · rw [hr] at h
            exact Except.noConfusion h
          · rw [hr] at h
            have h4 : Except.ok (kvs :: r) = Except.ok items := h
            injection h4 with h2
            rw [← h2]
            simp [ih r hr]
      | null => exact Except.noConfusion h
      | bool b => exact Except.noConfusion h
      | num i f e => exact Except.noConfusion h
      | str s => exact Except.noConfusion h
      | arr a => exact Except.noConfusion h

theorem enforce_ok_cases (plan out : Dict) (h : enforce_no_overlaps plan = Except.ok out) :
    (lookupKey plan itineraryK = none ∧ out = logsNormalize plan) ∨
    (∃ itemsJ items, lookupKey plan itineraryK = some (Json.arr itemsJ) ∧
      asItemList itemsJ = Except.ok items ∧ out = enforceWriteBack plan items) := by
  unfold enforce_no_overlaps at h
  split at h
  · exact Or.inl ⟨by assumption, (Except.ok.inj h).symm⟩
  · next itemsJ0 hit =>
      split at h
      · exact Except.noConfusion h
      · next items0 has =>
          exact Or.inr ⟨itemsJ0, items0, hit, has, (Except.ok.inj h).symm⟩
  · exact Except.noConfusion h

theorem enforce_eq_main (plan : Dict) (itemsJ : List Json) (items : List Dict)
    (hit : lookupKey plan itineraryK = some (Json.arr itemsJ))
    (has : asItemList itemsJ = Except.ok items) :
    enforce_no_overlaps plan = Except.ok (enforceWriteBack plan items) := by
  unfold enforce_no_overlaps
  split
  · next hnone => rw [hit] at hnone; exact Option.noConfusion hnone
  · next itemsJ0 hit0 =>
      rw [hit] at hit0
      injection hit0 with h2
      have h3 : itemsJ = itemsJ0 := Json.arr.inj h2
      subst h3
      split
      · next e hase => rw [has] at hase; exact Except.noConfusion hase
      · next items1 hase =>
          rw [has] at hase
          rw [Except.ok.inj hase]
  · next v hit0 hne =>
      rw [hit] at hne
      injection hne with h2
      exact False.elim (hit0 itemsJ h2.symm)

/-- C1: the claim says the Scheduler drops "Lunch" from the Scenario A plan
and logs `conflict_removed: 'Lunch' at 2025-11-21T11:45:00`.  The code does
neither: it returns the plan unchanged, with both items kept and the logs
list still empty, because `_conflicts` compares Lunch's start (11:45)
against Museum's unbuffered stated end (11:30).  This closed run at the
claim's exact input refutes both parts of the claim. -/
theorem c1_scheduler_counterexample :
    enforce_no_overlaps scenarioPlan = Except.ok scenarioPlan ∧
    lookupKey scenarioPlan itineraryK =
      some (Json.arr [Json.obj museumItem, Json.obj lunchItem]) ∧
    lookupKey scenarioPlan logsK = some (Json.arr []) :=
  ⟨rfl, rfl, rfl⟩

/-- C1 (amended): on the Scenario A two-item itinerary the Scheduler keeps
both Museum and Lunch and produces no `conflict_removed` log entry,
because the conflict test buffers only the candidate's effective end and
the kept item's start, leaving the kept item's stated end unbuffered
(Lunch at 11:45 starts after Museum's 11:30 end, so no conflict is
detected); the reversed comparison, which the greedy walk never performs,
would have flagged a conflict. -/
theorem c1_scheduler_keeps_lunch :
    conflicts lunchItem museumItem 30 = false ∧
    conflicts museumItem lunchItem 30 = true ∧
    enforce_no_overlaps scenarioPlan = Except.ok scenarioPlan :=
  ⟨rfl, rfl, rfl⟩

/-- C2: the claim's buffer invariant `y.start ≥ x.end + 30 min` fails on
the code: on Scenario A both Museum and Lunch are kept even though Lunch
starts at 11:45, before Museum's stated end (11:30) plus the 30-minute
buffer (12:00).  The parsed instants are seconds since the epoch. -/
theorem c2_buffer_counterexample :
    enforce_no_overlaps scenarioPlan = Except.ok scenarioPlan ∧
    lookupKey scenarioPlan itineraryK =
      some (Json.arr [Json.obj museumItem, Json.obj lunchItem]) ∧
    parse_iso (pyGet museumItem startTimeK) = some 1763719200 ∧
    parse_iso (pyGet lunchItem startTimeK) = some 1763725500 ∧
    parse_iso (pyGet museumItem endTimeK) = some 1763724600 ∧
    (1763719200 : Int) ≤ 1763725500 ∧
    ¬ (1763724600 + 30 * 60 : Int) ≤ 1763725500 :=
  ⟨rfl, rfl, rfl, rfl, rfl, by decide, by decide⟩

/-- C2 (amended): in the Scheduler's output the kept items are pairwise
free of conflicts in the order tested by the greedy walk — for x kept
before y, `_conflicts(y, x, 30)` is false — and for items with parsable
start times that test unfolds to: y starts at or after x's effective end
(the stated endTime, or start + 90 minutes when missing) with NO buffer
added, or degenerately x starts at least 60 minutes after y's effective
end.  The spec's 30-minute buffer between a kept item's end and the next
start is not enforced. -/
theorem c2_kept_pairwise_no_conflict : ∀ (plan out : Dict) (itemsJ : List Json),
    enforce_no_overlaps plan = Except.ok out →
    lookupKey out itineraryK = some (Json.arr itemsJ) →
    (∃ items : List Dict, itemsJ = items.map Json.obj ∧
      List.Pairwise (fun x y => conflicts y x 30 = false) items) ∧
    (∀ (x y : Dict) (sx sy : Int),
      parse_iso (pyGet x startTimeK) = some sx →
      parse_iso (pyGet y startTimeK) = some sy →
      (conflicts y x 30 = false ↔
        (parse_iso (pyGet x endTimeK)).getD (sx + 90 * 60) ≤ sy ∨
        (parse_iso (pyGet y endTimeK)).getD (sy + 90 * 60) + 60 * 60 ≤ sx)) := by
  intro plan out itemsJ h hout
  constructor
  · rcases enforce_ok_cases plan out h with ⟨hit, rfl⟩ | ⟨itemsJ0, items0, hit, has, rfl⟩
    · rw [lookup_logsNormalize_ne _ _ itineraryK_ne_logsK, hit] at hout
      exact Option.noConfusion hout
    · rw [enforceWriteBack_lookup_itin] at hout
      injection hout with h3
      refine ⟨keptOf items0, ?_, keptOf_pairwise items0⟩
      exact (Json.arr.inj h3).symm
  · intro x y sx sy hx hy
    cases hxe : parse_iso (pyGet x endTimeK) <;>
      cases hye : parse_iso (pyGet y endTimeK) <;>
        simp only [conflicts, hx, hy, hxe, hye, Option.getD_some, Option.getD_none,
          Bool.and_eq_false_iff, decide_eq_false_iff_not] <;>
      omega

/-- C2 witness: the amended theorem applied to the Scenario A run, with
the conflict-test characterisation instantiated at Museum and Lunch. -/
theorem c2_kept_pairwise_witness :
    (∃ items : List Dict, [Json.obj museumItem, Json.obj lunchItem] = items.map Json.obj ∧
      List.Pairwise (fun x y => conflicts y x 30 = false) items) ∧
    (conflicts lunchItem museumItem 30 = false ↔
      (parse_iso (pyGet museumItem endTimeK)).getD (1763719200 + 90 * 60) ≤ 1763725500 ∨
      (parse_iso (pyGet lunchItem endTimeK)).getD (1763725500 + 90 * 60) + 60 * 60 ≤
        1763719200) := by
  have h := c2_kept_pairwise_no_conflict scenarioPlan scenarioPlan
    [Json.obj museumItem, Json.obj lunchItem] rfl rfl
  exact ⟨h.1, h.2 museumItem lunchItem 1763719200 1763725500 rfl rfl⟩

/-- C3: re-running the Conflict Resolution Scheduler on its own output is a
no-op — the already-filtered itinerary is key-sorted and pairwise
conflict-free, so the second walk drops nothing, appends no
`conflict_removed` log entry, and returns the dict unchanged. -/
theorem c3_scheduler_idempotent : ∀ (plan out : Dict),
    enforce_no_overlaps plan = Except.ok out →
    enforce_no_overlaps out = Except.ok out := by
  intro plan out h
  rcases enforce_ok_cases plan out h with ⟨hit, rfl⟩ | ⟨itemsJ0, items0, hit, has, rfl⟩
  · unfold enforce_no_overlaps
    rw [lookup_logsNormalize_ne _ _ itineraryK_ne_logsK, hit]
    rw [logsNormalize_of_normal (logsNormalize plan) ?hnorm]
    case hnorm =>
      rcases lookup_logsNormalize_logs plan with ⟨h1, _⟩ | ⟨l, h1⟩
      · exact Or.inl h1
      · exact Or.inr ⟨l, h1⟩
  · set W := enforceWriteBack plan items0 with hW
    have hWitin : lookupKey W itineraryK =
        some (Json.arr ((keptOf items0).map Json.obj)) := by
      rw [hW]
      exact enforceWriteBack_lookup_itin plan items0
    have hWlogs : lookupKey W logsK = none ∨
        ∃ l, lookupKey W logsK = some (Json.arr l) := by
      rw [hW]
      exact enforceWriteBack_lookup_logs plan items0
    rw [enforce_eq_main W ((keptOf items0).map Json.obj) (keptOf items0) hWitin
      (asItemList_map_obj (keptOf items0))]
    congr 1
    unfold enforceWriteBack
    rw [(keptOf_fix items0).1, (keptOf_fix items0).2]
    simp only [List.isEmpty_nil, if_true]
    rw [logsNormalize_of_normal W hWlogs]
    exact dictSet_lookup_eq_self _ _ _ hWitin

/-- C3 witness: the theorem applied to a run with a genuine removal
(`conflictPlan` loses "Teatime"); the second run leaves the output
unchanged. -/
theorem c3_scheduler_idempotent_witness :
    enforce_no_overlaps conflictPlanOut = Except.ok conflictPlanOut :=
  c3_scheduler_idempotent conflictPlan conflictPlanOut rfl

/-- C10: the Scheduler modifies only the `"itinerary"` and `"logs"` keys of
its input plan dict — every other key, in particular `"locations"` (so
locations linked to dropped items survive the Scheduler), keeps its value —
and the output itinerary is a sublist of a permutation of the input item
list, so kept items are returned with all their fields unmodified (items
are only reordered or dropped, never edited). -/
theorem c10_scheduler_frame : ∀ (plan out : Dict),
    enforce_no_overlaps plan = Except.ok out →
    (∀ k : PyStr, k ≠ itineraryK → k ≠ logsK → lookupKey out k = lookupKey plan k) ∧
    lookupKey out locationsK = lookupKey plan locationsK ∧
    (∀ itemsJ, lookupKey plan itineraryK = some (Json.arr itemsJ) →
      ∃ keptJ sortedJ, lookupKey out itineraryK = some (Json.arr keptJ) ∧
        itemsJ.Perm sortedJ ∧ keptJ.Sublist sortedJ) := by
  intro plan out h
  have hframe : ∀ k : PyStr, k ≠ itineraryK → k ≠ logsK →
      lookupKey out k = lookupKey plan k := by
    rcases enforce_ok_cases plan out h with ⟨hit, rfl⟩ | ⟨itemsJ0, items0, hit, has, rfl⟩
    · intro k _ hk2
      exact lookup_logsNormalize_ne plan k hk2
    · intro k hk1 hk2
      exact enforceWriteBack_lookup_ne plan items0 k hk1 hk2
  refine ⟨hframe, hframe locationsK (by decide) (by decide), ?_⟩
  intro itemsJ hit2
  rcases enforce_ok_cases plan out h with ⟨hit, rfl⟩ | ⟨itemsJ0, items0, hit, has, rfl⟩
  · rw [hit] at hit2
    exact Option.noConfusion hit2
  · rw [hit] at hit2
    injection hit2 with h2
    have h3 : itemsJ0 = itemsJ := Json.arr.inj h2
    subst h3
    refine ⟨(keptOf items0).map Json.obj, (sortItems items0).map Json.obj,
      enforceWriteBack_lookup_itin plan items0, ?_, ?_⟩
    · rw [asItemList_ok_eq itemsJ0 items0 has]
      exact ((sortItems_perm items0).symm).map Json.obj
    · obtain ⟨e, he, hs⟩ := sched_kept_sublist (sortItems items0) [] []
      have hkept : keptOf items0 = e := by
        unfold keptOf
        rw [he]
        rfl
      rw [hkept]
      exact hs.map Json.obj

/-- C10 witness: the frame theorem applied to the run with a removal — the
`"status"` key (neither itinerary nor logs) keeps its value. -/
theorem c10_scheduler_frame_witness :
    lookupKey conflictPlanOut "status".data = some (Json.str "success".data) := by
  have h := c10_scheduler_frame conflictPlan conflictPlanOut rfl
  rw [h.1 "status".data (by decide) (by decide)]
  rfl

/-- C5: on the truncated input text `[{"a":1},{"b":2}` the array extractor
fails with an explicit parse error (the sentinel `[` it prepends leaves the
outer array unterminated after the crude `]`-completion), which is the
claim's second disjunct; it does not silently return malformed data — in
this embedding every `Except.ok` result is a structurally valid JSON
value, so an invalid-JSON return is impossible by construction. -/
theorem c5_truncation_recovery :
    safe_json_from_prefill_array truncatedArrayText =
      Except.error ('E' :: "xpecting delimiter".data) ∨
    safe_json_from_prefill_array truncatedArrayText =
      Except.ok (Json.arr [Json.obj [("a".data, Json.int 1)]]) :=
  Or.inl rfl

/-- C6: on a synthesis output consisting of prose (`Sure! `) followed by a
```json fenced JSON object, the object extractor recovers the embedded
object rather than failing. -/
theorem c6_fenced_object_recovery :
    safe_json_from_prefill_object fencedObjectText =
      Except.ok (Json.obj [("status".data, Json.str "success".data)]) :=
  rfl

theorem assignIds_truthy (gen : Nat → PyStr) (hg : ∀ n, gen n ≠ []) :
    ∀ (l : List Dict) (n : Nat), ∀ it ∈ assignIds gen n l,
      pyTruthy (pyGet it idK) = true := by
  intro l
  induction l with
  | nil =>
      intro n it h
      simp [assignIds] at h
  | cons a rest ih =>
      intro n it h
      by_cases ha : pyTruthy (pyGet a idK)
      · rw [assignIds, if_pos ha] at h
        rcases List.mem_cons.mp h with rfl | hm
        · exact ha
        · exact ih n it hm
      · rw [assignIds, if_neg ha] at h
        rcases List.mem_cons.mp h with rfl | hm
        · show pyTruthy (pyGet (dictSet a idK (Json.str (gen n))) idK) = true
          unfold pyGet pyGetD
          rw [lookup_dictSet_self]
          cases hgn : gen n with
          | nil => exact absurd hgn (hg n)
          | cons c cs => simp [pyTruthy]
        · exact ih (n + 1) it hm

theorem itinerary_ids_mem : ∀ (l : List Json) (ids : List Json),
    itinerary_ids l = Except.ok ids →
    ∀ v ∈ ids, ∃ d : Dict, Json.obj d ∈ l ∧ lookupKey d idK = some v := by
  intro l
  induction l with
  | nil =>
      intro ids h v hv
      have h2 : Except.ok ([] : List Json) = Except.ok ids := h
      injection h2 with h3
      rw [← h3] at hv
      simp at hv
  | cons j rest ih =>
      intro ids h v hv
      cases j with
      | obj it =>
          simp only [itinerary_ids] at h
          rcases hpi : pyIndex it idK with e | w
          · rw [hpi] at h
            exact Except.noConfusion h
          · rw [hpi] at h
            rcases hr : itinerary_ids rest with e | r
            · rw [hr] at h
              exact Except.noConfusion h
            · rw [hr] at h
              have h2 : Except.ok (w :: r) = Except.ok ids := h
              injection h2 with h3
              rw [← h3] at hv
              rcases List.mem_cons.mp hv with rfl | hm
              · refine ⟨it, List.mem_cons_self _ _, ?_⟩
                unfold pyIndex at hpi
                rcases hl : lookupKey it idK with _ | u
                · rw [hl] at hpi
                  exact Except.noConfusion hpi
                · rw [hl] at hpi
                  injection hpi with h4
                  rw [h4]
              · obtain ⟨d, hd1, hd2⟩ := ih r hr v hm
                exact ⟨d, List.mem_cons_of_mem _ hd1, hd2⟩
      | null => exact Except.noConfusion h
      | bool b => exact Except.noConfusion h
      | num i f e => exact Except.noConfusion h
      | str s => exact Except.noConfusion h
      | arr a => exact Except.noConfusion h

theorem filterLocsAux_spec (ids : List Json) : ∀ (locs res : List Json),
    filterLocsAux ids locs = Except.ok res →
    ∀ l ∈ res, l ∈ locs ∧ ∃ dl : Dict, l = Json.obj dl ∧
      ∃ v, lookupKey dl linkedItineraryIdK = some v ∧ v ∈ ids := by
  intro locs
  induction locs with
  | nil =>
      intro res h l hl
      have h2 : Except.ok ([] : List Json) = Except.ok res := h
      injection h2 with h3
      rw [← h3] at hl
      simp at hl
  | cons j rest ih =>
      intro res h l hl
      cases j with
      | obj dl0 =>
          simp only [filterLocsAux] at h
          rcases hpi : pyIndex dl0 linkedItineraryIdK with e | v0
          · rw [hpi] at h
            exact Except.noConfusion h
          · rw [hpi] at h
            rcases hr : filterLocsAux ids rest with e | r
            · rw [hr] at h
              exact Except.noConfusion h
            · rw [hr] at h
              have hlk : lookupKey dl0 linkedItineraryIdK = some v0 := by
                unfold pyIndex at hpi
                rcases hl2 : lookupKey dl0 linkedItineraryIdK with _ | u
                · rw [hl2] at hpi
                  exact Except.noConfusion hpi
                · rw [hl2] at hpi
                  injection hpi with h4
                  rw [h4]
              have h2 : Except.ok (if ids.contains v0 then Json.obj dl0 :: r else r) =
                  Except.ok res := h
              injection h2 with h3
              by_cases hc : ids.contains v0
              · rw [if_pos hc] at h3
                rw [← h3] at hl
                rcases List.mem_cons.mp hl with rfl | hm
                · exact ⟨List.mem_cons_self _ _,
                    dl0, rfl, v0, hlk, List.elem_iff.mp hc⟩
                · obtain ⟨hm1, hm2⟩ := ih r hr l hm
                  exact ⟨List.mem_cons_of_mem _ hm1, hm2⟩
              · rw [if_neg hc] at h3
                rw [← h3] at hl
                obtain ⟨hm1, hm2⟩ := ih r hr l hl
                exact ⟨List.mem_cons_of_mem _ hm1, hm2⟩
      | null => exact Except.noConfusion h
      | bool b => exact Except.noConfusion h
      | num i f e => exact Except.noConfusion h
      | str s => exact Except.noConfusion h
      | arr a => exact Except.noConfusion h

/-- C4: after the Integrity Enforcer (the `ensure_ids` id assignment
composed with the refine flow's location pruning), every itinerary item is
a dict with a truthy (non-empty) id, and every surviving location's
`linkedItineraryId` equals the id of some item of the final itinerary;
locations whose link matches no item are dropped (the output locations are
a subset of the input ones satisfying the link condition).  The id supply
`gen` models `str(uuid.uuid4())`, which is never empty. -/
theorem c4_integrity_enforcer : ∀ (gen : Nat → PyStr), (∀ n, gen n ≠ []) →
    ∀ (itin locs : List Json) (out : List Json × List Json),
    integrity_enforcer gen itin locs = Except.ok out →
    (∀ j ∈ out.1, ∃ d : Dict, j = Json.obj d ∧ pyTruthy (pyGet d idK) = true) ∧
    (∀ l ∈ out.2, l ∈ locs ∧ ∃ dl : Dict, l = Json.obj dl ∧
      ∃ dj : Dict, Json.obj dj ∈ out.1 ∧
        lookupKey dl linkedItineraryIdK = some (pyGet dj idK)) := by
  intro gen hg itin locs out h
  unfold integrity_enforcer at h
  rcases hai : asItemList itin with e | items
  · rw [hai] at h
    exact Except.noConfusion h
  · rw [hai] at h
    have h1 : (do
        let locs2 ← filter_locations ((assignIds gen 0 items).map Json.obj) locs
        Except.ok ((assignIds gen 0 items).map Json.obj, locs2) :
          Except PyStr (List Json × List Json)) = Except.ok out := h
    rcases hfl : filter_locations ((assignIds gen 0 items).map Json.obj) locs
      with e | locs2
    · rw [hfl] at h1
      have h2 : (Except.error e : Except PyStr (List Json × List Json)) =
          Except.ok out := h1
      exact Except.noConfusion h2
    · rw [hfl] at h1
      have h2 : Except.ok ((assignIds gen 0 items).map Json.obj, locs2) =
          Except.ok out := h1
      obtain ⟨ids, hids, hfla⟩ : ∃ ids,
          itinerary_ids ((assignIds gen 0 items).map Json.obj) = Except.ok ids ∧
          filterLocsAux ids locs = Except.ok locs2 := by
        unfold filter_locations at hfl
        rcases hids : itinerary_ids ((assignIds gen 0 items).map Json.obj)
          with e2 | ids
        · rw [hids] at hfl
          have h4 : (Except.error e2 : Except PyStr (List Json)) =
              Except.ok locs2 := hfl
          exact Except.noConfusion h4
        · rw [hids] at hfl
          exact ⟨ids, rfl, hfl⟩
      injection h2 with h3
      rw [← h3]
      constructor
      · intro j hj
        rcases List.mem_map.mp hj with ⟨d, hd1, rfl⟩
        exact ⟨d, rfl, assignIds_truthy gen hg items 0 d hd1⟩
      · intro l hl
        obtain ⟨hm1, dl, hdl, v, hlk, hv⟩ := filterLocsAux_spec ids locs locs2 hfla l hl
        obtain ⟨dj, hdj1, hdj2⟩ :=
          itinerary_ids_mem ((assignIds gen 0 items).map Json.obj) ids hids v hv
        refine ⟨hm1, dl, hdl, dj, hdj1, ?_⟩
        rw [hlk]
        unfold pyGet pyGetD
        rw [hdj2]
        rfl

/-- C4 witness: a concrete run — one item without an id receives the
generated id `"u"`, the location linked to `"u"` survives, the location
linked to `"zz"` is dropped. -/
theorem c4_integrity_enforcer_witness :
    integrity_enforcer (fun _ => "u".data) [Json.obj [(titleK, Json.str "A".data)]]
      [Json.obj [(linkedItineraryIdK, Json.str "u".data)],
       Json.obj [(linkedItineraryIdK, Json.str "zz".data)]] =
      Except.ok ([Json.obj [(titleK, Json.str "A".data), (idK, Json.str "u".data)]],
        [Json.obj [(linkedItineraryIdK, Json.str "u".data)]]) ∧
    (∀ j ∈ ([Json.obj [(titleK, Json.str "A".data), (idK, Json.str "u".data)]] : List Json),
      ∃ d : Dict, j = Json.obj d ∧ pyTruthy (pyGet d idK) = true) := by
  have h := c4_integrity_enforcer (fun _ => "u".data) (fun _ => List.cons_ne_nil _ _)
    [Json.obj [(titleK, Json.str "A".data)]]
    [Json.obj [(linkedItineraryIdK, Json.str "u".data)],
     Json.obj [(linkedItineraryIdK, Json.str "zz".data)]]
    ([Json.obj [(titleK, Json.str "A".data), (idK, Json.str "u".data)]],
     [Json.obj [(linkedItineraryIdK, Json.str "u".data)]]) rfl
  exact ⟨rfl, h.1⟩

/-- C7: whenever the origin (after the home-airport fallback), the
destination, or the depart date cannot be determined, the flight Query
Interpreter returns the clarification JSON — for every wrapper outcome,
which shows `find_flights` is never consulted — with
`user_prompt_needed: true`, with the missing-airports question among the
`suggested_questions`, and with the home-city hint inserted first when the
origin is the missing field and a home city is known. -/
theorem c7_flight_clarification :
    ∀ (parsedOrigin parsedDestination depart_date return_date : Option PyStr)
      (non_stop : Bool) (cabin : Option PyStr) (seats : Int) (currency : PyStr)
      (city : PyStr) (wrapper : Except PyStr Json),
    (¬ optTruthy (resolveOrigin parsedOrigin city) = true ∨
     ¬ optTruthy parsedDestination = true ∨ ¬ optTruthy depart_date = true) →
    search_real_flights parsedOrigin parsedDestination depart_date return_date
        non_stop cabin seats currency city wrapper =
      flightsMissingJson (resolveOrigin parsedOrigin city) city ∧
    jsonLookup (flightsMissingJson (resolveOrigin parsedOrigin city) city) upnK =
      some (Json.bool true) ∧
    (∃ qs, jsonLookup (flightsMissingJson (resolveOrigin parsedOrigin city) city) sqK =
        some (Json.arr qs) ∧ Json.str airportsQuestion ∈ qs ∧
      ((¬ optTruthy (resolveOrigin parsedOrigin city) = true ∧ ¬ city.isEmpty = true) →
        qs.headD Json.null = Json.str (homeHintQuestion city))) := by
  intro po pd dd rd ns cab seats cur city w h
  refine ⟨?_, rfl, ?_⟩
  · unfold search_real_flights
    rw [if_pos h]
  · unfold flightsMissingJson
    by_cases hc : ¬ optTruthy (resolveOrigin po city) = true ∧ ¬ city.isEmpty = true
    · rw [if_pos hc]
      refine ⟨_, rfl, ?_, ?_⟩
      · simp [flightHints]
      · intro _
        rfl
    · rw [if_neg hc]
      refine ⟨_, rfl, ?_, ?_⟩
      · simp [flightHints]
      · intro hcon
        exact absurd hcon hc

/-- C7 witness: a query with no parsable origin (and a profile city with no
known airport) and no depart date — the interpreter returns the clarifier
with the home-city hint first and the airports question listed, regardless
of the wrapper outcome supplied here. -/
theorem c7_flight_clarification_witness :
    search_real_flights none (some "SEA".data) none none false none 1 "USD".data
      "Zzz".data (Except.ok Json.null) =
      flightsMissingJson (resolveOrigin none "Zzz".data) "Zzz".data ∧
    jsonLookup (flightsMissingJson (resolveOrigin none "Zzz".data) "Zzz".data) upnK =
      some (Json.bool true) := by
  have h := c7_flight_clarification none (some "SEA".data) none none false none 1
    "USD".data "Zzz".data (Except.ok Json.null) (Or.inl (by decide))
  exact ⟨h.1, h.2.1⟩

/-- C8: the claim says every exception inside a normalizer is converted to
a clarification signal of shape `{error, user_prompt_needed: true,
suggested_questions}`.  The hotels normalizer refutes this: an exception
produces exactly `{"error": <text>}` with no `user_prompt_needed` and no
`suggested_questions` field; the events normalizer's exception JSON also
lacks `suggested_questions`. -/
theorem c8_exception_shape_counterexample :
    search_real_hotels (Except.error "boom".data) =
      Json.obj [(errorK, Json.str "boom".data)] ∧
    jsonLookup (search_real_hotels (Except.error "boom".data)) upnK = none ∧
    jsonLookup (search_real_hotels (Except.error "boom".data)) sqK = none ∧
    search_real_events [] [] Json.null Json.null 2025 0 (Except.ok ())
        (Except.error "boom".data) (Except.ok Json.null) (Except.ok Json.null) =
      Json.obj [(errorK, Json.str "boom".data), (upnK, Json.bool true)] ∧
    jsonLookup (search_real_events [] [] Json.null Json.null 2025 0 (Except.ok ())
        (Except.error "boom".data) (Except.ok Json.null) (Except.ok Json.null)) sqK =
      none :=
  ⟨rfl, rfl, rfl, rfl, rfl⟩

/-- C8 (amended): no normalizer propagates an exception, but the converted
JSON's shape varies: hotels returns `{error}` only, events and flights
return `{error, user_prompt_needed: true}` without `suggested_questions`
(the full clarification shape appears only on the no-usable-result paths);
and every hotels/events/flights invocation returns either a non-empty
normalized result (hotels: at most five named cards; events: at most
twelve; flights: some non-empty bucket under `results`) or a JSON carrying
an `error` field — never an empty silently-successful result. -/
theorem c8_normalizer_error_handling :
    (∀ e : PyStr, search_real_hotels (Except.error e) =
      Json.obj [(errorK, Json.str e)]) ∧
    (∀ (q c : PyStr) (ts te : Json) (ny ns : Int) (e : PyStr)
       (rB rC : Except PyStr Json),
      search_real_events q c ts te ny ns (Except.ok ()) (Except.error e) rB rC =
        Json.obj [(errorK, Json.str e), (upnK, Json.bool true)]) ∧
    (∀ (po pd dd rd : Option PyStr) (ns2 : Bool) (cab : Option PyStr) (seats : Int)
       (cur city : PyStr) (e : PyStr),
      optTruthy (resolveOrigin po city) = true → optTruthy pd = true →
      optTruthy dd = true →
      search_real_flights po pd dd rd ns2 cab seats cur city (Except.error e) =
        Json.obj [(errorK, Json.str e), (upnK, Json.bool true)]) ∧
    (∀ resp : Except PyStr Json,
      (∃ hs : List Dict, search_real_hotels resp =
          Json.obj [(hotelsK, Json.arr (hs.map Json.obj))] ∧ hs ≠ [] ∧ hs.length ≤ 5) ∨
      (jsonLookup (search_real_hotels resp) errorK).isSome = true) ∧
    (∀ (q c : PyStr) (ts te : Json) (ny ns : Int) (dr : Except PyStr Unit)
       (rA rB rC : Except PyStr Json),
      (∃ evs, search_real_events q c ts te ny ns dr rA rB rC =
          Json.obj [("events".data, Json.arr evs)] ∧ evs ≠ [] ∧ evs.length ≤ 12) ∨
      (jsonLookup (search_real_events q c ts te ny ns dr rA rB rC) errorK).isSome =
        true) ∧
    (∀ (po pd dd rd : Option PyStr) (ns2 : Bool) (cab : Option PyStr) (seats : Int)
       (cur city : PyStr) (w : Except PyStr Json),
      (∃ b o br o2, jsonLookup (search_real_flights po pd dd rd ns2 cab seats cur
          city w) resultsK =
          some (Json.obj [("best".data, Json.arr b), ("other".data, Json.arr o),
            ("best_return".data, Json.arr br), ("other_return".data, Json.arr o2)]) ∧
        ¬ (b = [] ∧ o = [] ∧ br = [] ∧ o2 = [])) ∨
      (jsonLookup (search_real_flights po pd dd rd ns2 cab seats cur city w)
        errorK).isSome = true) := by
  refine ⟨fun e => rfl, fun q c ts te ny ns e rB rC => rfl, ?_, ?_, ?_, ?_⟩
  · intro po pd dd rd ns2 cab seats cur city e ho hd hdd
    unfold search_real_flights
    rw [if_neg]
    · rfl
    · simp [ho, hd, hdd]
  · intro resp
    unfold search_real_hotels
    split
    · exact Or.inr rfl
    · next cards _ =>
        by_cases hemp : ((cards.filter (fun h => pyTruthy (pyGet h nameK))).take 5).isEmpty
        · rw [if_pos hemp]
          exact Or.inr rfl
        · rw [if_neg hemp]
          refine Or.inl ⟨(cards.filter (fun h => pyTruthy (pyGet h nameK))).take 5,
            rfl, ?_, List.length_take_le 5 _⟩
          intro hnil
          rw [hnil] at hemp
          exact hemp rfl
  · intro q c ts te ny ns dr rA rB rC
    unfold search_real_events
    split
    · exact Or.inr rfl
    · next evs _ =>
        by_cases hemp : (evs.take 12).isEmpty
        · rw [if_pos hemp]
          exact Or.inr rfl
        · rw [if_neg hemp]
          refine Or.inl ⟨evs.take 12, rfl, ?_, List.length_take_le 12 _⟩
          intro hnil
          rw [hnil] at hemp
          exact hemp rfl
  · intro po pd dd rd ns2 cab seats cur city w
    unfold search_real_flights
    by_cases hmiss : ¬ optTruthy (resolveOrigin po city) = true ∨
        ¬ optTruthy pd = true ∨ ¬ optTruthy dd = true
    · rw [if_pos hmiss]
      exact Or.inr rfl
    · rw [if_neg hmiss]
      split
      · exact Or.inr rfl
      · next best other bestR otherR _ =>
          by_cases hemp : best.isEmpty ∧ other.isEmpty ∧ bestR.isEmpty ∧ otherR.isEmpty
          · rw [if_pos hemp]
            exact Or.inr rfl
          · rw [if_neg hemp]
            refine Or.inl ⟨best, other, bestR, otherR, rfl, ?_⟩
            intro ⟨h1, h2, h3, h4⟩
            exact hemp ⟨by simp [h1], by simp [h2], by simp [h3], by simp [h4]⟩

/-- C8 witness: the flights exception conjunct of the amended theorem
instantiated at determined fields and a raising wrapper. -/
theorem c8_normalizer_error_handling_witness :
    search_real_flights (some ('S' :: "FO".data)) (some ('S' :: "EA".data))
      (some "2025-11-21".data) none false none 1 "USD".data "Berkeley".data
      (Except.error "boom".data) =
      Json.obj [(errorK, Json.str "boom".data), (upnK, Json.bool true)] := by
  have h := c8_normalizer_error_handling
  exact h.2.2.1 (some ('S' :: "FO".data)) (some ('S' :: "EA".data))
    (some "2025-11-21".data) none false none 1 "USD".data "Berkeley".data
    "boom".data (by decide) (by decide) (by decide)

/-- C9: the claim says every error response has itinerary and locations as
empty arrays.  The refine handler refutes it: its error path echoes back
the request's (non-empty) itinerary and locations. -/
theorem c9_error_shape_counterexample :
    (handle_refine_request [Json.obj museumItem] [Json.obj [(nameK, Json.str "x".data)]]
      (Except.error "boom".data)).status = "error".data ∧
    (handle_refine_request [Json.obj museumItem] [Json.obj [(nameK, Json.str "x".data)]]
      (Except.error "boom".data)).itinerary = [Json.obj museumItem] ∧
    (handle_refine_request [Json.obj museumItem] [Json.obj [(nameK, Json.str "x".data)]]
      (Except.error "boom".data)).locations = [Json.obj [(nameK, Json.str "x".data)]] ∧
    ([Json.obj museumItem] : List Json) ≠ [] :=
  ⟨rfl, rfl, rfl, by decide⟩

/-- C9 (amended): every error response still has the full response shape
(status, itinerary, logs, locations, options) with a log entry naming the
failing phase; the plan handler's planning- and synthesis-phase error
responses carry empty itinerary and locations, while the refine handler's
error response echoes back the request's itinerary and locations instead
of empty arrays. -/
theorem c9_error_responses :
    (∀ (e : PyStr) (execLogs : List Json) (st : Except PyStr AgentPlanResponse),
      handle_plan_request (Except.error e) execLogs st =
        { status := "error".data, itinerary := [],
          logs := [Json.str planningWithClaudeMsg,
            Json.str ("Error in planning phase: ".data ++ e)],
          locations := [], options := [] }) ∧
    (∀ (t : PyStr) (tool_plan : Json) (execLogs : List Json) (e : PyStr),
      safe_json_from_prefill_array t = Except.ok tool_plan →
      handle_plan_request (Except.ok t) execLogs (Except.error e) =
        { status := "error".data, itinerary := [],
          logs := [Json.str planningWithClaudeMsg,
            Json.str ("Plan steps: ".data ++ pyStr tool_plan),
            Json.str executingToolPlanMsg] ++ execLogs ++
            [Json.str ("Error in synthesis phase: ".data ++ e)],
          locations := [], options := [] }) ∧
    (∀ (reqI reqL : List Json) (e : PyStr),
      handle_refine_request reqI reqL (Except.error e) =
        { status := "error".data, itinerary := reqI,
          logs := [Json.str ("Error in refinement: ".data ++ e)],
          locations := reqL, options := [] }) := by
  refine ⟨fun e execLogs st => rfl, ?_, fun reqI reqL e => rfl⟩
  intro t tool_plan execLogs e hext
  unfold handle_plan_request
  have hbind : (do
      let t2 ← Except.ok t
      safe_json_from_prefill_array t2 : Except PyStr Json) =
      safe_json_from_prefill_array t := rfl
  rw [hbind, hext]
  simp

/-- C9 witness: the synthesis-phase conjunct at a concrete extraction (the
continuation `]` completes to the empty plan `[]`) and a raising
synthesis stage. -/
theorem c9_error_responses_witness :
    handle_plan_request (Except.ok "]".data) [] (Except.error "boom".data) =
      { status := "error".data, itinerary := [],
        logs := [Json.str planningWithClaudeMsg,
          Json.str ("Plan steps: ".data ++ pyStr (Json.arr [])),
          Json.str executingToolPlanMsg] ++ [] ++
          [Json.str ("Error in synthesis phase: ".data ++ "boom".data)],
        locations := [], options := [] } := by
  have h := c9_error_responses
  exact h.2.1 "]".data (Json.arr []) [] "boom".data rfl
